import Mathlib

/-!
Shallow embedding of the compliance-annotation core of the `comply` repository
(backend/app/services: report.py, footnotes.py, annotate.py) together with
theorems settling the frozen claims about it.

Conventions of the embedding:
* Python strings are Lean `String`; `s[:n]` is `String.take`, `s.strip()` is
  `String.trim`, `s.lower()` is `String.toLower`.
* Python `None`-able strings are `Option String`; Python truthiness of a string
  (`""` and `None` falsy) is made explicit at each use.
* PDF coordinates and font sizes are `ℚ` (the source holds IEEE doubles; every
  constant used by the code, such as 0.75 and 0.92, is exact in both).
* The PyMuPDF engine (an external collaborator in the spec) is abstracted:
  a `Page` carries its extracted text, layout blocks and a search oracle, and
  document saving is modelled by two success flags on `PdfDoc`.
-/

namespace Comply

/-! ### String primitives

Structurally recursive models of the Python string operations the source uses
(`lower`, `strip`, slicing, `split`, `replace`, `title`, `in`). Core `String`
functions are avoided because several are compiled by well-founded recursion
and do not evaluate inside kernel-checked proofs. -/

/-- Model of Python `s.lower()`. -/
def lowerStr (s : String) : String :=
  String.mk (s.toList.map Char.toLower)

/-- Strip leading and trailing whitespace from a character list. -/
def stripList (l : List Char) : List Char :=
  ((l.dropWhile Char.isWhitespace).reverse.dropWhile Char.isWhitespace).reverse

/-- Model of Python `s.strip()`. -/
def stripStr (s : String) : String :=
  String.mk (stripList s.toList)

/-- Model of Python slicing `s[:n]` (by characters). -/
def takeStr (s : String) (n : Nat) : String :=
  String.mk (s.toList.take n)

/-- Model of Python `len(s)` (number of characters). -/
def lenStr (s : String) : Nat :=
  s.toList.length

/-- Split a character list into maximal non-whitespace words. -/
def wordsGo (cur : List Char) : List Char → List (List Char)
  | [] => if cur = [] then [] else [cur.reverse]
  | c :: rest =>
    if c.isWhitespace then
      (if cur = [] then wordsGo [] rest else cur.reverse :: wordsGo [] rest)
    else
      wordsGo (c :: cur) rest

/-- Model of Python `s.split()` (split on whitespace runs, no empty parts). -/
def pyWords (s : String) : List String :=
  (wordsGo [] s.toList).map String.mk

/-- Join strings with a separator; model of Python `sep.join(parts)`. -/
def joinWith (sep : String) : List String → String
  | [] => ""
  | [x] => x
  | x :: y :: rest => x ++ sep ++ joinWith sep (y :: rest)

/-- Model of Python `" ".join(s.split())`: collapse whitespace runs to single
spaces and drop leading/trailing whitespace. -/
def collapseWs (s : String) : String :=
  joinWith " " (pyWords s)

/-- Split a character list on a separator character, keeping empty parts. -/
def splitOnCharGo (c : Char) (cur : List Char) : List Char → List (List Char)
  | [] => [cur.reverse]
  | d :: rest =>
    if d = c then cur.reverse :: splitOnCharGo c [] rest
    else splitOnCharGo c (d :: cur) rest

/-- Model of Python `s.split(sep)` for a one-character separator. -/
def splitOnChar (c : Char) (s : String) : List String :=
  (splitOnCharGo c [] s.toList).map String.mk

/-- Model of Python `s.replace(old, new)` for one-character arguments. -/
def replaceChar (old new : Char) (s : String) : String :=
  String.mk (s.toList.map (fun c => if c = old then new else c))

/-- Title-case a character list; `prevAlpha` tracks whether the previous
character was alphabetic. -/
def titleGo (prevAlpha : Bool) : List Char → List Char
  | [] => []
  | c :: rest =>
    (if c.isAlpha then (if prevAlpha then c.toLower else c.toUpper) else c) ::
      titleGo c.isAlpha rest

/-- Model of Python `s.title()`. -/
def pyTitle (s : String) : String :=
  String.mk (titleGo false s.toList)

/-- Python truthiness for an optional string: `None` and `""` are falsy. -/
def pyTruthy (o : Option String) : Option String :=
  match o with
  | some s => if s = "" then none else some s
  | none => none

/-- Model of Python `a or b` on optional strings (`""` and `None` falsy). -/
def pyOrStr (a b : Option String) : Option String :=
  match a with
  | some s => if s = "" then b else some s
  | none => b

/-- Substring test, model of Python `needle in hay` for strings. -/
def strContainsGo (needle : List Char) : List Char → Bool
  | [] => needle.isEmpty
  | c :: rest => needle.isPrefixOf (c :: rest) || strContainsGo needle rest

/-- Model of Python `needle in hay`. -/
def strContains (hay needle : String) : Bool :=
  strContainsGo needle.toList hay.toList

/-! ### report.py: violation deduplication (lines 723-740) -/

/-- `ViolationDetail` from app/models.py: a violation with an optional exact
quote to highlight. -/
structure ViolationDetail where
  violation : String
  exact_text : Option String
deriving DecidableEq, Repr

/-- `_normalize_exact_key` from report.py: lowercase, strip, collapse internal
whitespace, truncate to 120 characters; empty for falsy/blank input. -/
def normalize_exact_key (exact : Option String) : String :=
  match exact with
  | none => ""
  | some s => if stripStr s = "" then "" else takeStr (collapseWs (stripStr (lowerStr s))) 120

/-- Dedup key used by `deduplicate_violation_details` (report.py line 735):
the normalized exact text when `v.exact_text` is truthy, otherwise the string
`"desc:"` followed by the first 80 characters of the raw violation text. -/
def vdKey (v : ViolationDetail) : String :=
  match v.exact_text with
  | some e => if e ≠ "" then normalize_exact_key (some e) else "desc:" ++ takeStr v.violation 80
  | none => "desc:" ++ takeStr v.violation 80

/-- Loop of `deduplicate_violation_details` with its `seen_keys` set. -/
def dedupVDGo (seen : List String) : List ViolationDetail → List ViolationDetail
  | [] => []
  | v :: rest =>
    let key := vdKey v
    if key ∈ seen then dedupVDGo seen rest
    else v :: dedupVDGo (key :: seen) rest

/-- `deduplicate_violation_details` from report.py: keep one `ViolationDetail`
per distinct key, first seen wins. -/
def deduplicate_violation_details (l : List ViolationDetail) : List ViolationDetail :=
  dedupVDGo [] l

/-- Specification form of first-seen-wins key deduplication: keep the head and
recursively drop every later element sharing its key. -/
def dedupByFirstKey (f : ViolationDetail → String) : List ViolationDetail → List ViolationDetail
  | [] => []
  | v :: rest =>
    v :: dedupByFirstKey f (rest.filter (fun w => f w ≠ f v))
termination_by l => l.length
decreasing_by
  simp only [List.length_cons]
  exact Nat.lt_succ_of_le (List.length_filter_le _ _)

/-- Modelled from the claim wording of C2 (not from the source): normalize a
quote by lowercasing, collapsing whitespace and truncating to 120 chars. -/
def claimNormalize (s : String) : String :=
  takeStr (collapseWs (lowerStr s)) 120

/-- Modelled from the claim wording of C2 (not from the source): the key is the
normalized exact quote when present, else the description normalized the same
way. -/
def claimKeyOfFinding (v : ViolationDetail) : String :=
  match v.exact_text with
  | some e => if e ≠ "" then claimNormalize e else claimNormalize v.violation
  | none => claimNormalize v.violation

/-! ### report.py: pass-invocation logic of generate_analysis_result
(lines 1501-1513 and 1605) -/

/-- Which analysis passes `generate_analysis_result` invokes. -/
structure AnalysisPasses where
  chunked_doc_pass : Bool
  disclaimer_pass : Bool
  footnote_formatting_pass : Bool
deriving DecidableEq, Repr

/-- Control flow of `generate_analysis_result` (report.py lines 1501-1513,
1605): the deterministic red-flag scan result is deduplicated; the chunked
whole-document classifier pass runs only when the PDF is present and the scan
found nothing; the per-jurisdiction disclaimer checks run unconditionally
(line 1513); footnote/formatting checks run whenever the PDF is present. -/
def generate_analysis_result_passes (has_pdf_bytes : Bool)
    (scan_result : List ViolationDetail) : AnalysisPasses :=
  let red_flag_details := if has_pdf_bytes then deduplicate_violation_details scan_result else []
  { chunked_doc_pass := has_pdf_bytes && red_flag_details.isEmpty
    disclaimer_pass := true
    footnote_formatting_pass := has_pdf_bytes }

/-! ### Theorems for claims C2 and C5 -/

theorem dedupVDGo_eq_spec (l : List ViolationDetail) :
    ∀ seen : List String,
      dedupVDGo seen l = dedupByFirstKey vdKey (l.filter (fun v => decide (vdKey v ∉ seen))) := by
  induction l with
  | nil => intro seen; simp [dedupVDGo, dedupByFirstKey]
  | cons v rest ih =>
    intro seen
    rw [dedupVDGo, List.filter_cons]
    by_cases h : vdKey v ∈ seen
    · have hd : decide (vdKey v ∉ seen) = false := by simp [h]
      rw [hd, if_pos h]
      simpa using ih seen
    · have hd : decide (vdKey v ∉ seen) = true := by simp [h]
      rw [hd, if_neg h]
      simp only [if_true]
      rw [ih (vdKey v :: seen)]
      simp only [dedupByFirstKey, List.filter_filter]
      congr 2
      apply List.filter_congr
      intro w _
      by_cases hw : vdKey w = vdKey v <;> by_cases hs : vdKey w ∈ seen <;>
        simp [List.mem_cons, hw, hs]

set_option maxRecDepth 4000 in
/-- C2 counterexample: two findings without quotes whose descriptions differ
only in case. Under the claim's key (description normalized like a quote) they
share a key, yet `deduplicate_violation_details` keeps both, because the code
keys quote-less findings by the raw, un-normalized description prefix. -/
theorem C2_counterexample :
    claimKeyOfFinding ⟨"Foo", none⟩ = claimKeyOfFinding ⟨"foo", none⟩ ∧
      deduplicate_violation_details [⟨"Foo", none⟩, ⟨"foo", none⟩] =
        [⟨"Foo", none⟩, ⟨"foo", none⟩] := by
  constructor
  · decide
  · decide

/-- C2 (amended): two findings are collapsed by the aggregator iff their keys
match, where the key is the exact quote lowercased, whitespace-collapsed and
truncated to 120 characters when a non-empty exact quote is present, and
otherwise the tag `"desc:"` followed by the first 80 characters of the raw
description (no normalization); the first-seen finding of each key is kept. -/
theorem C2_dedup_first_seen_by_key (l : List ViolationDetail) :
    deduplicate_violation_details l = dedupByFirstKey vdKey l := by
  have h := dedupVDGo_eq_spec l []
  simpa [deduplicate_violation_details, List.filter_eq_self] using h

theorem deduplicate_ne_nil (l : List ViolationDetail) (h : l ≠ []) :
    deduplicate_violation_details l ≠ [] := by
  cases l with
  | nil => exact absurd rfl h
  | cons v rest => simp [deduplicate_violation_details, dedupVDGo]

/-- C5: with a PDF present, if the deterministic red-flag regex scan returns at
least one violation, the chunked whole-document classifier pass is skipped
while the per-jurisdiction disclaimer checks and footnote/formatting checks
still run; if the scan returns nothing the chunked pass runs. -/
theorem C5_red_flag_scan_skips_chunked_pass (scan_result : List ViolationDetail) :
    (scan_result ≠ [] →
      (generate_analysis_result_passes true scan_result).chunked_doc_pass = false ∧
      (generate_analysis_result_passes true scan_result).disclaimer_pass = true ∧
      (generate_analysis_result_passes true scan_result).footnote_formatting_pass = true) ∧
    (scan_result = [] →
      (generate_analysis_result_passes true scan_result).chunked_doc_pass = true) := by
  constructor
  · intro h
    refine ⟨?_, rfl, rfl⟩
    have hne := deduplicate_ne_nil scan_result h
    simp [generate_analysis_result_passes, List.isEmpty_iff, hne]
  · intro h
    subst h
    rfl

/-- C5 witness: concrete instantiations discharging both hypotheses. -/
theorem C5_red_flag_scan_witness :
    (generate_analysis_result_passes true
        [⟨"Guaranteed return or profit claim", some "guaranteed return"⟩]).chunked_doc_pass
      = false ∧
    (generate_analysis_result_passes true []).chunked_doc_pass = true := by
  refine ⟨((C5_red_flag_scan_skips_chunked_pass _).1 (by decide)).1, ?_⟩
  exact (C5_red_flag_scan_skips_chunked_pass []).2 rfl

/-! ### PDF layout model

Abstract model of the PyMuPDF objects the source consumes: spans, lines and
blocks as returned by `page.get_text("dict")`, the `(rect, text)` tuples of
`page.get_text("blocks")`, the plain page text, and a per-page search oracle
for `page.search_for`. -/

/-- A rectangle `(x0, y0, x1, y1)` in page coordinates. -/
structure Rect where
  x0 : ℚ
  y0 : ℚ
  x1 : ℚ
  y1 : ℚ
deriving DecidableEq, Repr

/-- A text span from `page.get_text("dict")`: text, bounding box, font size and
packed sRGB color. Optional fields model keys that may be absent. -/
structure Span where
  text : String
  bbox : Option (List ℚ)
  size : Option ℚ
  color : Option Nat
deriving DecidableEq, Repr

/-- A line of spans. -/
structure Line where
  spans : List Span
deriving DecidableEq, Repr

/-- A layout block: type (0 = text), bounding box and lines. -/
structure Block where
  btype : Int
  bbox : Rect
  lines : List Line
deriving DecidableEq, Repr

/-- One PDF page as the source observes it through PyMuPDF. `searchFor` is the
`page.search_for` oracle; `getTextbox` models `page.get_textbox`, with `none`
standing for a raised exception. -/
structure Page where
  height : ℚ
  text : String
  blocks : List Block
  blocksT : List (Rect × String)
  searchFor : String → List Rect
  getTextbox : Rect → Option String

/-- An opened PDF document plus the outcome of its two save modes (`true` =
the corresponding `pdf_doc.save` call succeeds, `false` = it raises). -/
structure PdfDoc where
  pages : List Page
  saveIncrementalOk : Bool
  saveFullOk : Bool

/-- Python truthiness of an optional list (absent or empty is falsy). -/
def listTruthy (o : Option (List ℚ)) : Option (List ℚ) :=
  match o with
  | some b => if b.isEmpty then none else some b
  | none => none

/-! ### footnotes.py: footnote extraction (lines 12-73) -/

/-- Location of a footnote definition's first line (1-based page, bbox). -/
structure FnLoc where
  page : Int
  bbox : List ℚ
deriving DecidableEq, Repr

/-- State of the document-wide footnote scan: the `result` dict
(label → text) and the `locations` dict, both insertion-ordered. -/
structure FnState where
  result : List (String × String)
  locations : List (String × FnLoc)
deriving DecidableEq, Repr

/-- Model of Python dict assignment `d[k] = v` on an insertion-ordered
association list: overwrite in place if the key exists, else append. -/
def dictSet (d : List (String × α)) (k : String) (v : α) : List (String × α) :=
  if d.any (fun p => p.1 == k) then
    d.map (fun p => if p.1 == k then (k, v) else p)
  else
    d ++ [(k, v)]

/-- Model of the regex `^(\d+)[\.\)\s]+(.+)$` from footnotes.py line 51:
a run of digits, a non-empty run of `.`/`)`/whitespace, then a non-empty rest.
When the separator run reaches the end of the string, the regex engine
backtracks one separator character into the final group. -/
def numMatch (s : String) : Option (String × String) :=
  let cs := s.toList
  let digits := cs.takeWhile Char.isDigit
  let rest1 := cs.dropWhile Char.isDigit
  let isSep := fun c => c == '.' || c == ')' || c.isWhitespace
  let sep := rest1.takeWhile isSep
  let rest2 := rest1.dropWhile isSep
  if digits.isEmpty then none
  else if sep.isEmpty then none
  else if rest2.isEmpty then
    if 2 ≤ sep.length then some (String.mk digits, String.mk (sep.drop (sep.length - 1)))
    else none
  else some (String.mk digits, String.mk rest2)

/-- Model of the regex `^(\*+)\s+(.+)$` from footnotes.py line 52. -/
def asterMatch (s : String) : Option (String × String) :=
  let cs := s.toList
  let asts := cs.takeWhile (fun c => c == '*')
  let rest1 := cs.dropWhile (fun c => c == '*')
  let ws := rest1.takeWhile Char.isWhitespace
  let rest2 := rest1.dropWhile Char.isWhitespace
  if asts.isEmpty then none
  else if ws.isEmpty then none
  else if rest2.isEmpty then
    if 2 ≤ ws.length then some (String.mk asts, String.mk (ws.drop (ws.length - 1)))
    else none
  else some (String.mk asts, String.mk rest2)

/-- The joined, stripped text of a line (footnotes.py lines 42-48). -/
def lineStrippedText (ln : Line) : String :=
  stripStr (joinWith "" (ln.spans.map (fun sp => sp.text)))

/-- Bbox of the first span of the line that has a truthy bbox
(footnotes.py lines 46-47). -/
def lineFirstBbox (ln : Line) : Option (List ℚ) :=
  ln.spans.findSome? (fun sp => listTruthy sp.bbox)

/-- Record a newly matched footnote label (footnotes.py lines 53-66): store
its text and, if the line has a bbox, its first-line location. -/
def fnOpenLabel (pageNum : Nat) (st : FnState) (line_bbox : Option (List ℚ))
    (k t : String) : FnState :=
  let key := stripStr k
  let text := stripStr t
  if key ≠ "" ∧ text ≠ "" then
    { result := dictSet st.result key text
      locations :=
        match line_bbox with
        | some b => dictSet st.locations key ⟨(pageNum : Int) + 1, b⟩
        | none => st.locations }
  else st

/-- Processing of one footnote-zone line (footnotes.py lines 41-69). A line
matching neither label pattern is a continuation of the last label in the
`result` dict (its key is unique there, so the last entry's value is the
dict lookup `result[last_key]`); lines shorter than 2 characters are skipped. -/
def footnote_line_step (pageNum : Nat) (st : FnState) (ln : Line) : FnState :=
  let line_text := lineStrippedText ln
  let line_bbox := lineFirstBbox ln
  if line_text = "" ∨ lenStr line_text < 2 then st
  else
    match numMatch line_text with
    | some (k, t) => fnOpenLabel pageNum st line_bbox k t
    | none =>
      match asterMatch line_text with
      | some (k, t) => fnOpenLabel pageNum st line_bbox k t
      | none =>
        match st.result.getLast? with
        | some (lk, lv) => { st with result := dictSet st.result lk (lv ++ " " ++ line_text) }
        | none => st

/-- Processing of one block during the footnote scan (footnotes.py lines
34-41): skip non-text blocks and blocks above the footnote-zone threshold. -/
def footnote_block_step (thr : ℚ) (pageNum : Nat) (st : FnState) (b : Block) : FnState :=
  if b.btype ≠ 0 then st
  else if b.bbox.y0 < thr then st
  else b.lines.foldl (footnote_line_step pageNum) st

/-- Processing of one page during the footnote scan; the footnote-zone
threshold is 0.75 × page height (footnotes.py line 32). -/
def footnote_page_step (pageNum : Nat) (st : FnState) (p : Page) : FnState :=
  p.blocks.foldl (footnote_block_step (p.height * (3 / 4)) pageNum) st

/-- The page loop of `extract_footnotes_from_pdf`: one scan state threaded
through all pages in order. -/
def extract_footnotes_go (pageNum : Nat) (st : FnState) : List Page → FnState
  | [] => st
  | p :: rest => extract_footnotes_go (pageNum + 1) (footnote_page_step pageNum st p) rest

/-- `extract_footnotes_from_pdf` from footnotes.py: the single document-wide
footnote label → text and label → location mappings. -/
def extract_footnotes_from_pdf (doc : PdfDoc) : FnState :=
  extract_footnotes_go 0 ⟨[], []⟩ doc.pages

theorem extract_footnotes_go_append (ps : List Page) (qs : List Page) :
    ∀ (n : Nat) (st : FnState),
      extract_footnotes_go n st (ps ++ qs) =
        extract_footnotes_go (n + ps.length) (extract_footnotes_go n st ps) qs := by
  induction ps with
  | nil => intro n st; simp [extract_footnotes_go]
  | cons p ps ih =>
    intro n st
    rw [List.cons_append, extract_footnotes_go, extract_footnotes_go, ih]
    congr 1
    simp only [List.length_cons]
    omega

/-- C7 (amended): footnote continuation state persists across page boundaries,
every footnote-zone line of length at least 2 matching neither label pattern is
appended space-joined to the text of the last opened label (when one exists),
and continuation lines never change the recorded locations. (The code skips
lines shorter than 2 characters instead of appending them, which is the one
correction to the claim.) -/
theorem C7_footnote_continuation :
    (∀ (ps qs : List Page) (inc full : Bool),
        extract_footnotes_from_pdf ⟨ps ++ qs, inc, full⟩ =
          extract_footnotes_go ps.length (extract_footnotes_from_pdf ⟨ps, inc, full⟩) qs) ∧
    (∀ (pageNum : Nat) (st : FnState) (ln : Line) (lk lv : String),
        st.result.getLast? = some (lk, lv) →
        2 ≤ lenStr (lineStrippedText ln) →
        numMatch (lineStrippedText ln) = none →
        asterMatch (lineStrippedText ln) = none →
        footnote_line_step pageNum st ln =
          { result := dictSet st.result lk (lv ++ " " ++ lineStrippedText ln)
            locations := st.locations }) := by
  constructor
  · intro ps qs inc full
    have h := extract_footnotes_go_append ps qs 0 ⟨[], []⟩
    simpa [extract_footnotes_from_pdf] using h
  · intro pageNum st ln lk lv hlast hlen hnum hast
    have hne : ¬ (lineStrippedText ln = "" ∨ lenStr (lineStrippedText ln) < 2) := by
      rintro (h | h)
      · rw [h] at hlen
        exact absurd hlen (by decide)
      · omega
    rw [footnote_line_step]
    simp only [hne, if_false, hnum, hast, hlast]

/-- C7 witness: a concrete continuation line appended to the label opened by a
previous line, locations untouched. -/
theorem C7_footnote_continuation_witness :
    footnote_line_step 1 ⟨[("1", "Alpha")], []⟩ ⟨[⟨"more text", none, none, none⟩]⟩ =
      { result := dictSet [("1", "Alpha")] "1"
          ("Alpha" ++ " " ++ lineStrippedText ⟨[⟨"more text", none, none, none⟩]⟩)
        locations := [] } :=
  C7_footnote_continuation.2 1 ⟨[("1", "Alpha")], []⟩ ⟨[⟨"more text", none, none, none⟩]⟩
    "1" "Alpha" rfl (by decide) (by decide) (by decide)

/-- Footnote-zone block used to refute C7 as literally stated: its first line
opens label "1" and its second line is the single character "a". -/
def fnCexBlock : Block :=
  { btype := 0
    bbox := ⟨10, 80, 200, 95⟩
    lines :=
      [⟨[⟨"1. Alpha", some [10, 80, 60, 90], some 9, some 0⟩]⟩,
       ⟨[⟨"a", some [10, 91, 14, 95], some 9, some 0⟩]⟩] }

/-- One-page document holding `fnCexBlock` inside the footnote zone
(threshold 0.75 × 100 = 75, block top y = 80). -/
def fnCexDoc : PdfDoc :=
  { pages :=
      [{ height := 100
         text := ""
         blocks := [fnCexBlock]
         blocksT := []
         searchFor := fun _ => []
         getTextbox := fun _ => none }]
    saveIncrementalOk := true
    saveFullOk := true }

set_option maxRecDepth 4000 in
/-- C7 counterexample: the footnote-zone line "a" matches neither label
pattern, yet it is not appended to the most recently opened label "1" —
the scan skips lines shorter than 2 characters, so the claim's "every
non-matching footnote-zone line is appended" is false. -/
theorem C7_counterexample :
    (extract_footnotes_from_pdf fnCexDoc).result = [("1", "Alpha")] ∧
      numMatch "a" = none ∧ asterMatch "a" = none := by
  refine ⟨?_, by decide, by decide⟩
  have e1 : extract_footnotes_from_pdf fnCexDoc
      = footnote_block_step (100 * (3 / 4)) 0 ⟨[], []⟩ fnCexBlock := rfl
  rw [e1, footnote_block_step]
  rw [if_neg (by decide : ¬ (fnCexBlock.btype ≠ 0))]
  rw [if_neg (by norm_num [fnCexBlock] : ¬ (fnCexBlock.bbox.y0 < 100 * (3 / 4)))]
  decide

/-! ### footnotes.py: unusual-color scanner (lines 233-276) -/

/-- Lower-case hexadecimal digit (`0`-`9`, then `a`-`f`). -/
def hexDigitChar (n : Nat) : Char :=
  if n < 10 then Char.ofNat ('0'.toNat + n)
  else if n < 16 then Char.ofNat ('a'.toNat + (n - 10))
  else '0'

/-- Model of Python `f"{n:02x}"` for `n ≤ 255`. -/
def hex2 (n : Nat) : String :=
  String.mk [hexDigitChar (n / 16 % 16), hexDigitChar (n % 16)]

/-- An entry of the list returned by `get_unusual_colored_text`. -/
structure ColorIssue where
  page : Nat
  text : String
  color_hex : String
  bbox : List ℚ
deriving DecidableEq, Repr

/-- Span loop of `get_unusual_colored_text` (footnotes.py lines 252-272):
skip blank/short spans and default-colored spans, decompose the packed RGB
color into `r = (c >> 16) & 0xff`, `g = (c >> 8) & 0xff`, `b = c & 0xff`
(written as division/modulus below), and flag red-dominant spans
(`r >= 100 and g <= 120 and b <= 120 and (r > g or r > b)`). -/
def unusual_spans (pageNum : Nat) : List Span → List ColorIssue
  | [] => []
  | sp :: rest =>
    if stripStr sp.text = "" ∨ lenStr (stripStr sp.text) < 2 then unusual_spans pageNum rest
    else
      match sp.color with
      | none => unusual_spans pageNum rest
      | some c =>
        if c = 0 then unusual_spans pageNum rest
        else
          if 100 ≤ c / 65536 % 256 ∧ c / 256 % 256 ≤ 120 ∧ c % 256 ≤ 120 ∧
              (c / 256 % 256 < c / 65536 % 256 ∨ c % 256 < c / 65536 % 256) then
            ⟨pageNum + 1, takeStr (stripStr sp.text) 100,
              "#" ++ hex2 (c / 65536 % 256) ++ hex2 (c / 256 % 256) ++ hex2 (c % 256),
              sp.bbox.getD [0, 0, 0, 0]⟩ :: unusual_spans pageNum rest
          else unusual_spans pageNum rest

/-- Line loop of `get_unusual_colored_text`. -/
def unusual_lines (pageNum : Nat) : List Line → List ColorIssue
  | [] => []
  | ln :: rest => unusual_spans pageNum ln.spans ++ unusual_lines pageNum rest

/-- Block loop of `get_unusual_colored_text` (non-text blocks skipped). -/
def unusual_blocks (pageNum : Nat) : List Block → List ColorIssue
  | [] => []
  | b :: rest =>
    (if b.btype ≠ 0 then [] else unusual_lines pageNum b.lines) ++ unusual_blocks pageNum rest

/-- Page loop of `get_unusual_colored_text`. -/
def unusual_pages : Nat → List Page → List ColorIssue
  | _, [] => []
  | pageNum, p :: rest => unusual_blocks pageNum p.blocks ++ unusual_pages (pageNum + 1) rest

/-- `get_unusual_colored_text` from footnotes.py: red-text (edit remnant)
spans over the whole document. -/
def get_unusual_colored_text (doc : PdfDoc) : List ColorIssue :=
  unusual_pages 0 doc.pages

/-- The claim's flag condition on a packed RGB color: R ≥ 100, G ≤ 120,
B ≤ 120 and (R > G or R > B). -/
def claimRedFlag (c : Nat) : Prop :=
  100 ≤ c / 65536 % 256 ∧ c / 256 % 256 ≤ 120 ∧ c % 256 ≤ 120 ∧
    (c / 256 % 256 < c / 65536 % 256 ∨ c % 256 < c / 65536 % 256)

instance (c : Nat) : Decidable (claimRedFlag c) := by
  unfold claimRedFlag
  infer_instance

/-- Characterization of which spans `get_unusual_colored_text` flags: a span
yields an issue iff its stripped text has at least 2 characters and its packed
color is present, non-zero and red-dominant. -/
def unusualColorIssueOf (pageNum : Nat) (sp : Span) : Option ColorIssue :=
  match sp.color with
  | none => none
  | some c =>
    let text := stripStr sp.text
    if text ≠ "" ∧ 2 ≤ lenStr text ∧ c ≠ 0 ∧ claimRedFlag c then
      some ⟨pageNum + 1, takeStr text 100,
        "#" ++ hex2 (c / 65536 % 256) ++ hex2 (c / 256 % 256) ++ hex2 (c % 256),
        sp.bbox.getD [0, 0, 0, 0]⟩
    else none

/-- Specification form of the whole scan as a filter over all text-block
spans. -/
def unusualColorSpecPages : Nat → List Page → List ColorIssue
  | _, [] => []
  | pageNum, p :: rest =>
    (p.blocks.filter (fun b => b.btype == 0)).flatMap
        (fun b => b.lines.flatMap (fun ln => ln.spans.filterMap (unusualColorIssueOf pageNum)))
      ++ unusualColorSpecPages (pageNum + 1) rest

theorem unusual_spans_eq_filterMap (pageNum : Nat) (l : List Span) :
    unusual_spans pageNum l = l.filterMap (unusualColorIssueOf pageNum) := by
  induction l with
  | nil => rfl
  | cons sp rest ih =>
    rw [unusual_spans, List.filterMap_cons]
    by_cases ht : stripStr sp.text = "" ∨ lenStr (stripStr sp.text) < 2
    · have hnone : unusualColorIssueOf pageNum sp = none := by
        unfold unusualColorIssueOf
        cases hc : sp.color with
        | none => rfl
        | some c =>
          have hno : ¬ (stripStr sp.text ≠ "" ∧ 2 ≤ lenStr (stripStr sp.text) ∧
              c ≠ 0 ∧ claimRedFlag c) := by
            rintro ⟨h1, h2, -, -⟩
            rcases ht with ht | ht
            · exact h1 ht
            · omega
          simp [hno]
      simp [ht, hnone, ih]
    · obtain ⟨ht1, ht2⟩ := not_or.mp ht
      cases hc : sp.color with
      | none =>
        have hnone : unusualColorIssueOf pageNum sp = none := by
          simp [unusualColorIssueOf, hc]
        simp [ht, hnone, ih]
      | some c =>
        by_cases h0 : c = 0
        · subst h0
          have hnone : unusualColorIssueOf pageNum sp = none := by
            simp [unusualColorIssueOf, hc]
          simp [ht, hnone, ih]
        · by_cases hcond : claimRedFlag c
          · have hcond' : 100 ≤ c / 65536 % 256 ∧ c / 256 % 256 ≤ 120 ∧ c % 256 ≤ 120 ∧
                (c / 256 % 256 < c / 65536 % 256 ∨ c % 256 < c / 65536 % 256) := hcond
            have hsome : unusualColorIssueOf pageNum sp =
                some ⟨pageNum + 1, takeStr (stripStr sp.text) 100,
                  "#" ++ hex2 (c / 65536 % 256) ++ hex2 (c / 256 % 256) ++ hex2 (c % 256),
                  sp.bbox.getD [0, 0, 0, 0]⟩ := by
              unfold unusualColorIssueOf
              rw [hc]
              exact if_pos ⟨ht1, by omega, h0, hcond⟩
            simp [ht, h0, hcond', hsome, ih]
          · have hcond' : ¬ (100 ≤ c / 65536 % 256 ∧ c / 256 % 256 ≤ 120 ∧ c % 256 ≤ 120 ∧
                (c / 256 % 256 < c / 65536 % 256 ∨ c % 256 < c / 65536 % 256)) := hcond
            have hnone : unusualColorIssueOf pageNum sp = none := by
              unfold unusualColorIssueOf
              rw [hc]
              exact if_neg (by rintro ⟨-, -, -, h⟩; exact hcond h)
            simp [ht, h0, hcond', hnone, ih]

theorem unusual_lines_eq (pageNum : Nat) (l : List Line) :
    unusual_lines pageNum l =
      l.flatMap (fun ln => ln.spans.filterMap (unusualColorIssueOf pageNum)) := by
  induction l with
  | nil => rfl
  | cons ln rest ih =>
    rw [unusual_lines, List.flatMap_cons, ih, unusual_spans_eq_filterMap]

theorem unusual_blocks_eq (pageNum : Nat) (l : List Block) :
    unusual_blocks pageNum l =
      (l.filter (fun b => b.btype == 0)).flatMap
        (fun b => b.lines.flatMap (fun ln => ln.spans.filterMap (unusualColorIssueOf pageNum))) := by
  induction l with
  | nil => rfl
  | cons b rest ih =>
    rw [unusual_blocks, List.filter_cons]
    by_cases hb : b.btype = 0
    · have : (b.btype == 0) = true := by simpa using hb
      rw [this]
      simp only [if_true, List.flatMap_cons]
      rw [if_neg (by simpa using hb), ih, unusual_lines_eq]
    · have : (b.btype == 0) = false := by simpa using hb
      rw [this]
      simp only [Bool.false_eq_true, if_false]
      rw [if_pos (by simpa using hb), ih]
      rfl

/-- C9 (amended): the unusual-color scanner flags exactly the spans whose
stripped text has at least 2 characters and whose packed color is present,
non-zero and satisfies R ≥ 100 ∧ G ≤ 120 ∧ B ≤ 120 ∧ (R > G ∨ R > B); in
particular no default-colored span is ever flagged. (The claim as stated
omits the 2-character minimum on the span text.) -/
theorem C9_red_text_characterization (doc : PdfDoc) :
    get_unusual_colored_text doc = unusualColorSpecPages 0 doc.pages := by
  rw [get_unusual_colored_text]
  generalize 0 = n
  induction doc.pages generalizing n with
  | nil => rfl
  | cons p rest ih =>
    rw [unusual_pages, unusualColorSpecPages, ih, unusual_blocks_eq]

/-- One-span document used to refute C9 as literally stated: a pure-red span
(`0xff0000`) whose stripped text is the single character "x". -/
def colorCexDoc : PdfDoc :=
  { pages :=
      [{ height := 100
         text := ""
         blocks :=
           [{ btype := 0
              bbox := ⟨0, 10, 200, 30⟩
              lines := [⟨[⟨"x", some [0, 10, 10, 20], some 12, some 16711680⟩]⟩] }]
         blocksT := []
         searchFor := fun _ => []
         getTextbox := fun _ => none }]
    saveIncrementalOk := true
    saveFullOk := true }

set_option maxRecDepth 2000 in
/-- C9 counterexample: the red one-character span of `colorCexDoc` has a
non-default packed color satisfying the claim's flag condition, yet the
scanner flags nothing, because spans shorter than 2 characters are skipped. -/
theorem C9_counterexample :
    get_unusual_colored_text colorCexDoc = [] ∧ claimRedFlag 16711680 ∧ (16711680 : Nat) ≠ 0 := by
  refine ⟨by decide, by decide, by decide⟩

/-! ### footnotes.py: footnote reference check (lines 76-145) -/

/-- `_span_is_footnote_ref`: a span is a bare reference marker iff its whole
stripped text is digits or asterisks. -/
def span_is_footnote_ref (span_text : String) : Option String :=
  let t := stripStr span_text
  if t = "" then none
  else if t.toList.all Char.isDigit then some t
  else if t.toList.all (fun c => c == '*') then some t
  else none

/-- An issue emitted by `check_footnote_references`. -/
structure RefIssue where
  page : Nat
  issue_type : String
  message : String
  reference : String
  bbox : Option (List ℚ)
deriving DecidableEq, Repr

/-- Span step of `check_footnote_references` (footnotes.py lines 124-141),
threading the per-page `seen_refs_this_page` set. -/
def check_refs_span_step (footnotes : List (String × String)) (page_no : Nat)
    (st : List String × List RefIssue) (sp : Span) : List String × List RefIssue :=
  match span_is_footnote_ref sp.text with
  | none => st
  | some ref =>
    if st.1.contains ref then st
    else
      let seen := ref :: st.1
      if footnotes.any (fun p => p.1 == ref) then (seen, st.2)
      else
        (seen, st.2 ++ [⟨page_no, "footnote_reference_missing",
          "Footnote reference '" ++ ref ++ "' has no matching footnote in this document.",
          ref, listTruthy sp.bbox⟩])

/-- Per-page body-zone reference check: body blocks are the text blocks whose
top is above the 0.75 × height threshold. -/
def check_refs_page (footnotes : List (String × String)) (pageNum : Nat) (p : Page) :
    List RefIssue :=
  let thr := p.height * (3 / 4)
  let spans :=
    ((p.blocks.filter (fun b => b.btype == 0 && decide (b.bbox.y0 < thr))).flatMap
        (fun b => b.lines)).flatMap (fun ln => ln.spans)
  (spans.foldl (check_refs_span_step footnotes (pageNum + 1)) ([], [])).2

/-- Page loop of `check_footnote_references`. -/
def check_refs_pages (footnotes : List (String × String)) :
    Nat → List Page → List RefIssue
  | _, [] => []
  | pageNum, p :: rest =>
    check_refs_page footnotes pageNum p ++ check_refs_pages footnotes (pageNum + 1) rest

/-- `check_footnote_references` from footnotes.py: flag body-zone bare
reference markers that have no entry in the document's footnote dict. The
function returns immediately when the dict is empty (line 107). -/
def check_footnote_references (doc : PdfDoc) (footnotes : List (String × String)) :
    List RefIssue :=
  if footnotes.isEmpty then []
  else check_refs_pages footnotes 0 doc.pages

/-- C10: with an empty footnote-label mapping, `check_footnote_references`
returns no issues for any document, even one full of bare digit or asterisk
body-zone spans. -/
theorem C10_empty_footnotes_no_issues (doc : PdfDoc) :
    check_footnote_references doc [] = [] := rfl

/-! ### footnotes.py: find_ref_bbox_on_page (lines 148-230) -/

/-- The body-zone text blocks of a page (both passes of
`find_ref_bbox_on_page` filter blocks the same way). -/
def bodyBlocks (p : Page) (thr : ℚ) : List Block :=
  p.blocks.filter (fun b => b.btype == 0 && decide (b.bbox.y0 < thr))

/-- First pass of `find_ref_bbox_on_page` (lines 174-197): the first body-zone
span whose stripped text equals the reference and whose bbox is truthy. -/
def ref_first_match (ref : String) (blocks : List Block) : Option (List ℚ) :=
  ((blocks.flatMap (fun b => b.lines)).flatMap (fun ln => ln.spans)).findSome?
    (fun sp => if stripStr sp.text == ref then listTruthy sp.bbox else none)

/-- All font sizes of body-zone spans (lines 183-185). -/
def body_span_sizes (blocks : List Block) : List ℚ :=
  ((blocks.flatMap (fun b => b.lines)).flatMap (fun ln => ln.spans)).filterMap
    (fun sp => sp.size)

/-- Stable insertion keeping earlier-inserted elements before later equal
ones. -/
def insertStable (le : α → α → Bool) (x : α) : List α → List α
  | [] => [x]
  | y :: ys => if le x y then x :: y :: ys else y :: insertStable le x ys

/-- Stable sort; model of Python's stable `list.sort` / `sorted`. -/
def sortStable (le : α → α → Bool) : List α → List α
  | [] => []
  | x :: xs => insertStable le x (sortStable le xs)

/-- Model of Python `statistics.median` on a non-empty list. -/
def pyMedian (l : List ℚ) : ℚ :=
  let s := sortStable (fun a b => decide (a ≤ b)) l
  let n := s.length
  if n % 2 = 1 then s.getD (n / 2) 0
  else (s.getD (n / 2 - 1) 0 + s.getD (n / 2) 0) / 2

/-- Span loop of the second pass of `find_ref_bbox_on_page` (lines 211-222):
return (`Except.error`) the first matching small span's bbox, otherwise
remember the first matching bbox as candidate. -/
def ref_small_spans (thrOpt : Option ℚ) (ref : String) (cand : Option (List ℚ)) :
    List Span → Except (List ℚ) (Option (List ℚ))
  | [] => Except.ok cand
  | sp :: rest =>
    if stripStr sp.text == ref then
      match listTruthy sp.bbox with
      | some b =>
        match thrOpt with
        | none => Except.error b
        | some thr =>
          match sp.size with
          | some sz =>
            if sz ≤ thr then Except.error b
            else ref_small_spans thrOpt ref (if cand.isNone then some b else cand) rest
          | none => ref_small_spans thrOpt ref (if cand.isNone then some b else cand) rest
      | none => ref_small_spans thrOpt ref cand rest
    else ref_small_spans thrOpt ref cand rest

/-- Line loop of the second pass: after any line that set the candidate the
loops break (lines 223-224), so the candidate is returned. -/
def ref_small_lines (thrOpt : Option ℚ) (ref : String) :
    List Line → Except (List ℚ) (Option (List ℚ))
  | [] => Except.ok none
  | ln :: rest =>
    match ref_small_spans thrOpt ref none ln.spans with
    | Except.error b => Except.error b
    | Except.ok (some c) => Except.ok (some c)
    | Except.ok none => ref_small_lines thrOpt ref rest

/-- Block loop of the second pass (lines 205-226). -/
def ref_small_blocks (thrOpt : Option ℚ) (ref : String) :
    List Block → Except (List ℚ) (Option (List ℚ))
  | [] => Except.ok none
  | b :: rest =>
    match ref_small_lines thrOpt ref b.lines with
    | Except.error bb => Except.error bb
    | Except.ok (some c) => Except.ok (some c)
    | Except.ok none => ref_small_blocks thrOpt ref rest

/-- Per-page core of `find_ref_bbox_on_page` after the threshold is fixed:
first pass returns the first exact match immediately (lines 195-197);
otherwise the size-heuristic pass runs, with the small-span threshold set to
0.92 × median span size when any sizes were collected (lines 198-228). -/
def find_ref_on_page_core (page : Page) (thr : ℚ) (ref : String) : Option (List ℚ) :=
  match ref_first_match ref (bodyBlocks page thr) with
  | some b => some b
  | none =>
    match ref_small_blocks
        (if (body_span_sizes (bodyBlocks page thr)).isEmpty then none
         else some (pyMedian (body_span_sizes (bodyBlocks page thr)) * (92 / 100)))
        ref (bodyBlocks page thr) with
    | Except.error b => some b
    | Except.ok (some c) => some c
    | Except.ok none => none

/-- `find_ref_bbox_on_page` from footnotes.py: falsy reference or
out-of-range page yields `none`, else the per-page lookup runs with the
0.75 × height footnote threshold. -/
def find_ref_bbox_on_page (doc : PdfDoc) (page_1based : Int) (ref_text : String) :
    Option (List ℚ) :=
  if ref_text = "" then none
  else if (page_1based - 1 : Int) < 0 ∨ (doc.pages.length : Int) ≤ page_1based - 1 then none
  else
    match doc.pages.get? (page_1based - 1).toNat with
    | none => none
    | some page => find_ref_on_page_core page (page.height * (3 / 4)) (stripStr ref_text)

/-- Specification: the bbox of the first body-zone span exactly matching the
reference, with the same guards as `find_ref_bbox_on_page` but no font-size
logic at all. -/
def first_exact_match_bbox (doc : PdfDoc) (page_1based : Int) (ref_text : String) :
    Option (List ℚ) :=
  if ref_text = "" then none
  else if (page_1based - 1 : Int) < 0 ∨ (doc.pages.length : Int) ≤ page_1based - 1 then none
  else
    match doc.pages.get? (page_1based - 1).toNat with
    | none => none
    | some page => ref_first_match (stripStr ref_text) (bodyBlocks page (page.height * (3 / 4)))

theorem ref_small_spans_of_no_match (thrOpt : Option ℚ) (ref : String)
    (spans : List Span)
    (h : ∀ sp ∈ spans, (if stripStr sp.text == ref then listTruthy sp.bbox else none) = none) :
    ∀ cand, ref_small_spans thrOpt ref cand spans = Except.ok cand := by
  induction spans with
  | nil => intro cand; rfl
  | cons sp rest ih =>
    intro cand
    have hsp := h sp (List.mem_cons_self sp rest)
    rw [ref_small_spans]
    cases hb : (stripStr sp.text == ref) with
    | false =>
      simp only [Bool.false_eq_true, if_false]
      exact ih (fun x hx => h x (List.mem_cons_of_mem sp hx)) cand
    | true =>
      rw [hb] at hsp
      simp only [if_true] at hsp ⊢
      rw [hsp]
      exact ih (fun x hx => h x (List.mem_cons_of_mem sp hx)) cand

theorem ref_small_lines_of_no_match (thrOpt : Option ℚ) (ref : String)
    (lines : List Line)
    (h : ∀ ln ∈ lines, ∀ sp ∈ ln.spans,
      (if stripStr sp.text == ref then listTruthy sp.bbox else none) = none) :
    ref_small_lines thrOpt ref lines = Except.ok none := by
  induction lines with
  | nil => rfl
  | cons ln rest ih =>
    rw [ref_small_lines]
    rw [ref_small_spans_of_no_match thrOpt ref ln.spans
      (h ln (List.mem_cons_self ln rest)) none]
    exact ih (fun x hx => h x (List.mem_cons_of_mem ln hx))

theorem ref_small_blocks_of_no_match (thrOpt : Option ℚ) (ref : String)
    (blocks : List Block)
    (h : ∀ b ∈ blocks, ∀ ln ∈ b.lines, ∀ sp ∈ ln.spans,
      (if stripStr sp.text == ref then listTruthy sp.bbox else none) = none) :
    ref_small_blocks thrOpt ref blocks = Except.ok none := by
  induction blocks with
  | nil => rfl
  | cons b rest ih =>
    rw [ref_small_blocks]
    rw [ref_small_lines_of_no_match thrOpt ref b.lines (h b (List.mem_cons_self b rest))]
    exact ih (fun x hx => h x (List.mem_cons_of_mem b hx))

theorem find_ref_on_page_core_eq (page : Page) (thr : ℚ) (ref : String) :
    find_ref_on_page_core page thr ref = ref_first_match ref (bodyBlocks page thr) := by
  unfold find_ref_on_page_core
  cases hfm : ref_first_match ref (bodyBlocks page thr) with
  | some b => rfl
  | none =>
    have hall : ∀ sp ∈ ((bodyBlocks page thr).flatMap
          (fun b => b.lines)).flatMap (fun ln => ln.spans),
        (if stripStr sp.text == ref then listTruthy sp.bbox else none) = none :=
      List.findSome?_eq_none_iff.mp hfm
    have hblocks : ∀ b ∈ bodyBlocks page thr, ∀ ln ∈ b.lines, ∀ sp ∈ ln.spans,
        (if stripStr sp.text == ref then listTruthy sp.bbox else none) = none := by
      intro b hb ln hln sp hsp
      apply hall
      rw [List.mem_flatMap]
      exact ⟨ln, List.mem_flatMap.mpr ⟨b, hb, hln⟩, hsp⟩
    rw [ref_small_blocks_of_no_match _ _ _ hblocks]

/-- C8 (amended): `find_ref_bbox_on_page` always returns the bbox of the first
body-zone span exactly matching the reference text (in document order),
regardless of font size, or `none` when there is no exact match — the
size-preference pass is unreachable because its guard re-tests the same exact
match the first pass already exhausted. -/
theorem C8_first_exact_match_wins (doc : PdfDoc) (page_1based : Int) (ref_text : String) :
    find_ref_bbox_on_page doc page_1based ref_text =
      first_exact_match_bbox doc page_1based ref_text := by
  unfold find_ref_bbox_on_page first_exact_match_bbox
  by_cases h0 : ref_text = ""
  · rw [if_pos h0, if_pos h0]
  · rw [if_neg h0, if_neg h0]
    by_cases hpg : (page_1based - 1 : Int) < 0 ∨ (doc.pages.length : Int) ≤ page_1based - 1
    · rw [if_pos hpg, if_pos hpg]
    · rw [if_neg hpg, if_neg hpg]
      cases hget : doc.pages.get? (page_1based - 1).toNat with
      | none => rfl
      | some page => exact find_ref_on_page_core_eq page (page.height * (3 / 4)) (stripStr ref_text)

/-- Page used to refute C8 as literally stated: two body-zone spans whose text
is exactly "1" — the first with the page's full font size 12, the second a
small (size 5, below 0.92 × median) superscript-like span at a different
bbox. -/
def refCexPage : Page :=
  { height := 100
    text := ""
    blocks :=
      [{ btype := 0
         bbox := ⟨0, 10, 200, 30⟩
         lines :=
           [⟨[⟨"1", some [0, 0, 10, 10], some 12, some 0⟩,
              ⟨"body text", some [12, 0, 100, 10], some 12, some 0⟩]⟩] },
       { btype := 0
         bbox := ⟨0, 40, 200, 60⟩
         lines := [⟨[⟨"1", some [50, 50, 60, 60], some 5, some 0⟩]⟩] }]
    blocksT := []
    searchFor := fun _ => []
    getTextbox := fun _ => none }

/-- One-page document around `refCexPage`. -/
def refCexDoc : PdfDoc :=
  { pages := [refCexPage], saveIncrementalOk := true, saveFullOk := true }

set_option maxRecDepth 2000 in
/-- C8 counterexample: the page's span sizes are [12, 12, 5] with median 12;
the size-5 span at bbox [50,50,60,60] is below the 0.92 × median superscript
threshold while the first matching span (size 12) is not, yet
`find_ref_bbox_on_page` returns the first span's bbox [0,0,10,10] — the
claimed preference for small-font matches never happens. -/
theorem C8_counterexample :
    find_ref_bbox_on_page refCexDoc 1 "1" = some [0, 0, 10, 10] ∧
      (5 : ℚ) ≤ pyMedian [12, 12, 5] * (92 / 100) ∧
      ¬ ((12 : ℚ) ≤ pyMedian [12, 12, 5] * (92 / 100)) := by
  have hm : pyMedian [12, 12, 5] = 12 := by decide
  refine ⟨?_, by rw [hm]; norm_num, by rw [hm]; norm_num⟩
  have e : find_ref_bbox_on_page refCexDoc 1 "1" =
      find_ref_on_page_core refCexPage ((100 : ℚ) * (3 / 4)) "1" := rfl
  rw [e, show (100 : ℚ) * (3 / 4) = 75 by norm_num]
  decide

/-! ### annotate.py: data model (the app/models.py fields the annotator reads) -/

/-- `MissingPhrase` from app/models.py (the unused `required` flag is
omitted). -/
structure MissingPhrase where
  phrase : String
  reason : Option String
  exact_highlight_text : Option String
deriving DecidableEq, Repr

/-- `ChecklistResult` from app/models.py; jurisdictions are modelled by their
string value, `checklist_items` is not read by the annotator. -/
structure ChecklistResult where
  jurisdiction : Option String
  missing_required : List MissingPhrase
  violations : List String
  violation_details : List ViolationDetail
deriving DecidableEq, Repr

/-- `FootnoteIssue` from app/models.py. -/
structure FootnoteIssue where
  page : Int
  issue_type : String
  message : String
  reference : Option String
  bbox : Option (List ℚ)
deriving DecidableEq, Repr

/-- `FormattingIssue` from app/models.py. -/
structure FormattingIssue where
  page : Int
  issue_type : String
  message : String
  text : Option String
  color_hex : Option String
  bbox : Option (List ℚ)
deriving DecidableEq, Repr

/-- The fields of `AnalysisResult` that `process_pdf_page_by_page` reads. -/
structure AnalysisResult where
  missing_required_phrases : List MissingPhrase
  checklist_results : List ChecklistResult
  footnote_issues : List FootnoteIssue
  formatting_issues : List FormattingIssue
  footnotes_locations : List (String × FnLoc)
deriving DecidableEq, Repr

/-- `DetectedDisclaimer` from app/models.py (jurisdiction by string value). -/
structure DetectedDisclaimer where
  text : String
  jurisdiction : Option String
deriving DecidableEq, Repr

/-- A side-panel comment record built by `process_pdf_page_by_page`. -/
structure Comment where
  page : Int
  text : String
  type : String
  color : String
  highlighted_text : String
  jurisdiction : Option String
  search_text : Option String
deriving DecidableEq, Repr

/-- One highlight-plus-popup pair written into the output PDF by
`add_highlight_with_popup`. -/
structure AddedAnnot where
  page_num : Nat
  rect : Rect
  message : String
  color : ℚ × ℚ × ℚ
  opacity : ℚ
  title : String
deriving DecidableEq, Repr

/-- The saved output document: the unchanged input pages plus the annotation
objects written during processing, and which save mode succeeded. -/
structure SavedPdf where
  doc : PdfDoc
  annots : List AddedAnnot
  incremental : Bool

/-- The text content of a saved document (annotations carry no text). -/
def savedTextContent (s : SavedPdf) : List String :=
  s.doc.pages.map (fun p => p.text)

instance : Inhabited Page :=
  ⟨{ height := 0, text := "", blocks := [], blocksT := [],
     searchFor := fun _ => [], getTextbox := fun _ => none }⟩

/-! ### annotate.py: text search (lines 20-49, 82-143, 227-289) -/

/-- Model of Python `round(x, 1)` (round half to even). -/
def pyRound1 (q : ℚ) : ℚ :=
  let n := q * 10
  let f : ℤ := ⌊n⌋
  (if n - f < 1 / 2 then f
   else if 1 / 2 < n - f then f + 1
   else if f % 2 = 0 then f else f + 1 : ℤ) / 10

/-- Dedup key of a search hit (annotate.py line 108):
`(page_num, round(rect.x0, 1), round(rect.y0, 1))`. -/
def rectKey (page_num : Nat) (r : Rect) : Nat × ℚ × ℚ :=
  (page_num, pyRound1 r.x0, pyRound1 r.y0)

/-- Append search hits to `(results, seen_rects)`, skipping already-seen
keys. -/
def addInstances (page_num : Nat) (st : List (Nat × Rect) × List (Nat × ℚ × ℚ))
    (rects : List Rect) : List (Nat × Rect) × List (Nat × ℚ × ℚ) :=
  rects.foldl
    (fun st r =>
      if st.2.contains (rectKey page_num r) then st
      else (st.1 ++ [(page_num, r)], rectKey page_num r :: st.2))
    st

/-- The four per-page search strategies of `find_text_in_pdf` (annotate.py
lines 102-141): exact, lowercase (when it differs), first 50 characters (for
long queries), and the first two sentences longer than 20 characters. -/
def find_text_page_step (s : String) (st : List (Nat × Rect) × List (Nat × ℚ × ℚ))
    (page_num : Nat) (page : Page) : List (Nat × Rect) × List (Nat × ℚ × ℚ) :=
  let st := addInstances page_num st (page.searchFor s)
  let st :=
    if s ≠ lowerStr s then addInstances page_num st (page.searchFor (lowerStr s)) else st
  let st :=
    if 50 < lenStr s then addInstances page_num st (page.searchFor (takeStr s 50)) else st
  if 1 < (splitOnChar '.' s).length then
    ((((splitOnChar '.' s).map stripStr).filter (fun t => 20 < lenStr t)).take 2).foldl
      (fun st sent => addInstances page_num st (page.searchFor sent)) st
  else st

/-- Page loop of `find_text_in_pdf`. -/
def find_text_go (s : String) (page_num : Nat)
    (st : List (Nat × Rect) × List (Nat × ℚ × ℚ)) :
    List Page → List (Nat × Rect) × List (Nat × ℚ × ℚ)
  | [] => st
  | p :: rest => find_text_go s (page_num + 1) (find_text_page_step s st page_num p) rest

/-- `find_text_in_pdf` from annotate.py: all occurrences of a query, as
`(page_num, rect)` pairs, deduplicated by `(page, round(x0,1), round(y0,1))`;
queries shorter than 3 characters yield nothing. -/
def find_text_in_pdf (doc : PdfDoc) (search_text : String) : List (Nat × Rect) :=
  let s := stripStr search_text
  if s = "" ∨ lenStr s < 3 then []
  else (find_text_go s 0 ([], []) doc.pages).1

/-- `find_text_in_pdf_with_fallbacks` from annotate.py (lines 20-49): exact
quote first, then its first 80/40/20 characters, then the keyword fallback. -/
def find_text_in_pdf_with_fallbacks (doc : PdfDoc) (exact_text : Option String)
    (keyword_fallback : Option String) : List (Nat × Rect) :=
  let keyword_part : List (Nat × Rect) :=
    match pyTruthy keyword_fallback with
    | some k => if 2 ≤ lenStr (stripStr k) then find_text_in_pdf doc (stripStr k) else []
    | none => []
  match pyTruthy exact_text with
  | some e =>
    if 3 ≤ lenStr (stripStr e) then
      let r1 := find_text_in_pdf doc (stripStr e)
      if r1 ≠ [] then r1
      else
        let r2 := if 80 < lenStr e then find_text_in_pdf doc (stripStr (takeStr e 80)) else []
        if r2 ≠ [] then r2
        else
          let r3 := if 40 < lenStr e then find_text_in_pdf doc (stripStr (takeStr e 40)) else []
          if r3 ≠ [] then r3
          else
            let r4 := if 20 < lenStr e then find_text_in_pdf doc (stripStr (takeStr e 20)) else []
            if r4 ≠ [] then r4
            else keyword_part
    else keyword_part
  | none => keyword_part

/-- The jurisdiction lead-in phrases of `find_disclaimer_section`
(annotate.py lines 241-250). -/
def jurisdiction_phrases : List String :=
  ["for residents of the united arab emirates",
   "for residents of the uae",
   "for residents of the state of kuwait",
   "for residents of the state of qatar",
   "for residents of the sultanate of oman",
   "for residents of the kingdom of saudi arabia",
   "for residents of the dubai international financial centre",
   "for residents of the difc"]

/-- Per-page hits of `find_disclaimer_section` (annotate.py lines 252-288):
blocks containing a jurisdiction phrase, the "disclaimer(s)" headings (the
source searches each heading twice and keeps both result lists), and the
first 100 (falling back to 50) characters of the detected text. -/
def find_disclaimer_page (detected_text : String) (page_num : Nat) (page : Page) :
    List (Nat × Rect) :=
  let page_text := lowerStr page.text
  let jur_hits :=
    jurisdiction_phrases.flatMap (fun phrase =>
      if strContains page_text phrase then
        (page.blocksT.filter (fun bt => strContains (lowerStr bt.2) phrase)).map
          (fun bt => (page_num, bt.1))
      else [])
  let heading_hits :=
    ["disclaimers", "disclaimer"].flatMap (fun kw =>
      (page.searchFor kw ++ page.searchFor kw).map (fun r => (page_num, r)))
  let detected_hits :=
    if detected_text ≠ "" then
      let search_key := stripStr (takeStr detected_text 100)
      if 30 < lenStr search_key then
        let instances := page.searchFor search_key
        if instances ≠ [] then instances.map (fun r => (page_num, r))
        else (page.searchFor (takeStr search_key 50)).map (fun r => (page_num, r))
      else []
    else []
  jur_hits ++ heading_hits ++ detected_hits

/-- Page loop of `find_disclaimer_section`. -/
def find_disclaimer_go (detected_text : String) : Nat → List Page → List (Nat × Rect)
  | _, [] => []
  | n, p :: rest =>
    find_disclaimer_page detected_text n p ++ find_disclaimer_go detected_text (n + 1) rest

/-- `find_disclaimer_section` from annotate.py. -/
def find_disclaimer_section (doc : PdfDoc) (detected_text : String) : List (Nat × Rect) :=
  find_disclaimer_go detected_text 0 doc.pages

/-! ### annotate.py: process_pdf_page_by_page (lines 404-806) -/

/-- The rotating highlight palette (annotate.py lines 428-439). -/
def color_palette : List (ℚ × ℚ × ℚ) :=
  [(1.0, 0.2, 0.2), (1.0, 0.6, 0.0), (1.0, 0.8, 0.0), (0.2, 0.8, 0.2), (0.2, 0.6, 1.0),
   (0.6, 0.2, 1.0), (1.0, 0.4, 0.8), (0.0, 0.8, 0.8), (0.8, 0.6, 0.2), (0.4, 0.4, 0.4)]

/-- Model of Python `int(x)` on the non-negative palette components. -/
def ratToNat (q : ℚ) : Nat := (⌊q⌋ : ℤ).toNat

/-- Model of the f-string `#{int(r*255):02x}{int(g*255):02x}{int(b*255):02x}`
(annotate.py line 502). -/
def colorHex (c : ℚ × ℚ × ℚ) : String :=
  "#" ++ hex2 (ratToNat (c.1 * 255)) ++ hex2 (ratToNat (c.2.1 * 255)) ++
    hex2 (ratToNat (c.2.2 * 255))

/-- One entry of `issues_to_annotate` (annotate.py lines 469-496). -/
structure IssueRec where
  type : String
  text : String
  reason : String
  exact_text : Option String
  severity : String
  priority : Nat
deriving DecidableEq, Repr

/-- Build `issues_to_annotate` from a checklist result (annotate.py lines
466-497 for the document-wide loop; lines 621-651 are the identical
per-disclaimer copy): violation details (or, when absent, the plain violation
strings) at priority 1, missing-required phrases at priority 2, then a stable
sort by priority. -/
def build_issues_to_annotate (cr : ChecklistResult) : List IssueRec :=
  let vd := cr.violation_details
  let fromVd := vd.map (fun v =>
    { type := "violation", text := v.violation, reason := v.violation,
      exact_text := v.exact_text, severity := "HIGH", priority := 1 })
  let fromViolations :=
    if vd.isEmpty then
      cr.violations.map (fun s =>
        { type := "violation", text := s, reason := s, exact_text := none,
          severity := "HIGH", priority := 1 })
    else []
  let fromMissing := cr.missing_required.map (fun m =>
    { type := "missing_required", text := m.phrase,
      reason := (pyOrStr m.reason (some m.phrase)).getD m.phrase,
      exact_text := m.exact_highlight_text, severity := "HIGH", priority := 2 })
  sortStable (fun a b => decide (a.priority ≤ b.priority))
    (fromVd ++ fromViolations ++ fromMissing)

/-- First non-overlapping match of the regex `\d+%` (annotate.py line 514). -/
def findFirstPercent : List Char → Option String
  | [] => none
  | c :: rest =>
    if c.isDigit then
      match (c :: rest).dropWhile Char.isDigit with
      | '%' :: _ => some (String.mk ((c :: rest).takeWhile Char.isDigit) ++ "%")
      | _ => findFirstPercent rest
    else findFirstPercent rest

/-- Fixed vocabulary of the document-wide violation fallback (line 517). -/
def docwide_violation_keywords : List String :=
  ["guaranteed", "guarantee", "promise", "100%", "gain", "return", "profit"]

/-- Keyword fallback of the document-wide loop (annotate.py lines 509-528),
computed only when the issue has no truthy exact text. -/
def docwide_keyword_fallback (issue : IssueRec) : Option String :=
  if issue.type = "violation" then
    let kfPct :=
      if strContains issue.text "%" then findFirstPercent issue.text.toList else none
    match docwide_violation_keywords.find?
        (fun w => strContains (lowerStr issue.text) (lowerStr w)) with
    | some w => pyOrStr kfPct (some w)
    | none => kfPct
  else if issue.type = "missing_required" then
    let missing_text := lowerStr issue.text
    if strContains missing_text "risk" then some "risk"
    else if strContains missing_text "past performance" ∨
        strContains missing_text "performance" then some "past performance"
    else if strContains missing_text "investor" then some "investor"
    else none
  else none

/-- Keyword fallback of the per-disclaimer loop (annotate.py lines 662-671):
for violations, the first disclaimer sentence containing one of the first five
long violation words; for missing requirements longer than 10 characters, the
first 80 characters of the phrase. -/
def disclaimer_keyword_fallback (detected_text : String) (issue : IssueRec) :
    Option String :=
  if issue.type = "violation" then
    let violation_words := ((pyWords issue.text).filter (fun w => 4 < lenStr w)).take 5
    if violation_words ≠ [] then
      match (splitOnChar '.' detected_text).find?
          (fun sentence =>
            violation_words.any (fun w => strContains (lowerStr sentence) (lowerStr w))) with
      | some sentence => some (takeStr (stripStr sentence) 80)
      | none => none
    else none
  else if issue.type = "missing_required" ∧ 10 < lenStr issue.text then
    some (takeStr issue.text 80)
  else none

/-- Region resolution for one issue (annotate.py lines 530-532 and 674-676):
locate with fallbacks, then retry the raw keyword when nothing was found. -/
def located_instances (doc : PdfDoc) (exact keyword_fallback : Option String) :
    List (Nat × Rect) :=
  let all_instances := find_text_in_pdf_with_fallbacks doc exact keyword_fallback
  if all_instances.isEmpty then
    match pyTruthy keyword_fallback with
    | some k => find_text_in_pdf doc k
    | none => []
  else all_instances

/-- Mutable state of the annotation loops: the rotating palette index, the
annotations written so far and the comments collected so far. -/
structure AnnState where
  color_index : Nat
  annots : List AddedAnnot
  comments : List Comment
deriving Repr

/-- The text shown under a highlight (annotate.py lines 543-547 and 686-690):
`page.get_textbox` truncated to 200 characters, or on exception the exact
text / keyword / issue text fallback chain. -/
def instanceHighlightedText (doc : PdfDoc) (exact keyword_fallback : Option String)
    (issue_text : String) (inst : Nat × Rect) : String :=
  match (doc.pages.getD inst.1 default).getTextbox inst.2 with
  | some t => takeStr t 200
  | none => takeStr ((pyOrStr exact (pyOrStr keyword_fallback (some issue_text))).getD "") 200

/-- One comment for one located instance (annotate.py lines 550-559 and
694-702). -/
def instanceComment (doc : PdfDoc) (exact keyword_fallback : Option String)
    (issue : IssueRec) (color_hex : String) (jur : String) (inst : Nat × Rect) : Comment :=
  let iht := instanceHighlightedText doc exact keyword_fallback issue.text inst
  let search_text_for_nav := takeStr ((pyOrStr exact keyword_fallback).getD "") 100
  { page := (inst.1 : Int) + 1
    text := takeStr issue.reason 300
    type := pyTitle (replaceChar '_' ' ' issue.type)
    color := color_hex
    highlighted_text :=
      if iht ≠ "" then iht else if issue.text ≠ "" then takeStr issue.text 200 else ""
    jurisdiction := some jur
    search_text :=
      if search_text_for_nav ≠ "" then some (takeStr search_text_for_nav 100) else none }

/-- The comment emitted when no region resolves for a HIGH-severity issue
(annotate.py lines 561-572 and 704-715). -/
def fallbackComment (issue : IssueRec) (color_hex : String) (jur : String)
    (page : Int) : Comment :=
  { page := page
    text := takeStr issue.reason 300
    type := pyTitle (replaceChar '_' ' ' issue.type)
    color := color_hex
    highlighted_text := if issue.text ≠ "" then takeStr issue.text 200 else ""
    jurisdiction := some jur
    search_text := none }

/-- Highlights written for the located instances of one issue (annotate.py
lines 535-541 and 678-684). -/
def instanceAnnots (issue : IssueRec) (highlight_color : ℚ × ℚ × ℚ)
    (instances : List (Nat × Rect)) : List AddedAnnot :=
  instances.map (fun inst =>
    { page_num := inst.1, rect := inst.2, message := takeStr issue.reason 200,
      color := highlight_color, opacity := 0.5, title := takeStr issue.type 40 })

/-- Processing of one issue in the document-wide loop (annotate.py lines
499-572). -/
def annotate_issue_docwide (doc : PdfDoc) (st : AnnState) (issue : IssueRec) : AnnState :=
  let highlight_color := color_palette.getD (st.color_index % color_palette.length) (0, 0, 0)
  let color_hex := colorHex highlight_color
  let exact := pyTruthy issue.exact_text
  let keyword_fallback :=
    if (pyTruthy issue.exact_text).isNone then docwide_keyword_fallback issue else none
  let all_instances := located_instances doc exact keyword_fallback
  if all_instances ≠ [] then
    { color_index := st.color_index + 1
      annots := st.annots ++ instanceAnnots issue highlight_color all_instances
      comments := st.comments ++ all_instances.map
        (instanceComment doc exact keyword_fallback issue color_hex "Document-wide") }
  else if (issue.type = "violation" ∨ issue.type = "missing_required") ∧
      issue.severity = "HIGH" then
    { color_index := st.color_index + 1
      annots := st.annots
      comments := st.comments ++ [fallbackComment issue color_hex "Document-wide" 1] }
  else
    { st with color_index := st.color_index + 1 }

/-- Processing of one issue in the per-disclaimer loop (annotate.py lines
653-715); the no-region comment is anchored to the first disclaimer-section
hit's page when one exists, else page 1. -/
def annotate_issue_disclaimer (doc : PdfDoc) (detected_text : String) (jur_name : String)
    (disclaimer_locations : List (Nat × Rect)) (st : AnnState) (issue : IssueRec) :
    AnnState :=
  let highlight_color := color_palette.getD (st.color_index % color_palette.length) (0, 0, 0)
  let color_hex := colorHex highlight_color
  let exact := issue.exact_text
  let keyword_fallback :=
    if (pyTruthy exact).isNone then disclaimer_keyword_fallback detected_text issue else none
  let all_instances := located_instances doc exact keyword_fallback
  if all_instances ≠ [] then
    { color_index := st.color_index + 1
      annots := st.annots ++ instanceAnnots issue highlight_color all_instances
      comments := st.comments ++ all_instances.map
        (instanceComment doc exact keyword_fallback issue color_hex jur_name) }
  else if (issue.type = "violation" ∨ issue.type = "missing_required") ∧
      issue.severity = "HIGH" then
    { color_index := st.color_index + 1
      annots := st.annots
      comments := st.comments ++
        [fallbackComment issue color_hex jur_name
          (match disclaimer_locations with
           | (pn, _) :: _ => (pn : Int) + 1
           | [] => 1)] }
  else
    { st with color_index := st.color_index + 1 }

/-- Sentence fallback for locating a disclaimer section (annotate.py lines
583-592): try the first two sentences, stopping at the first that is longer
than 30 characters and yields hits. -/
def sentence_locations (doc : PdfDoc) : List String → List (Nat × Rect)
  | [] => []
  | s :: rest =>
    let sentence := stripStr s
    if 30 < lenStr sentence then
      let locations := find_text_in_pdf doc (takeStr sentence 100)
      if locations ≠ [] then locations else sentence_locations doc rest
    else sentence_locations doc rest

/-- Processing of one detected disclaimer (annotate.py lines 575-715). -/
def process_disclaimer (doc : PdfDoc) (analysis_result : AnalysisResult) (st : AnnState)
    (detected : DetectedDisclaimer) : AnnState :=
  if detected.text = "" then st
  else
    let locs0 := find_disclaimer_section doc detected.text
    let disclaimer_locations :=
      if locs0.isEmpty then
        locs0 ++ sentence_locations doc ((splitOnChar '.' detected.text).take 2)
      else locs0
    let checklist_result : Option ChecklistResult :=
      match detected.jurisdiction with
      | some j => analysis_result.checklist_results.find? (fun cr => cr.jurisdiction == some j)
      | none => analysis_result.checklist_results.find? (fun cr => cr.jurisdiction == none)
    match checklist_result with
    | none => st
    | some cr =>
      if cr.missing_required.isEmpty && cr.violations.isEmpty then st
      else
        let jur_name := detected.jurisdiction.getD "General"
        (build_issues_to_annotate cr).foldl
          (annotate_issue_disclaimer doc detected.text jur_name disclaimer_locations) st

/-- Model of PyMuPDF `Rect.get_area` (0 for empty rectangles). -/
def rectArea (r : Rect) : ℚ :=
  if r.x0 < r.x1 ∧ r.y0 < r.y1 then (r.x1 - r.x0) * (r.y1 - r.y0) else 0

/-- Red-text highlights of the first formatting pass (annotate.py lines
717-731): only `unusual_color` issues with a valid in-range bbox of positive
area get a highlight; no comments are added here. -/
def formatting_highlight_annots (doc : PdfDoc) (formatting_issues : List FormattingIssue) :
    List AddedAnnot :=
  formatting_issues.flatMap (fun fi =>
    if fi.issue_type = "unusual_color" then
      match listTruthy fi.bbox with
      | some b =>
        if 4 ≤ b.length then
          if 0 ≤ fi.page - 1 ∧ fi.page - 1 < (doc.pages.length : Int) then
            let r : Rect := ⟨b.getD 0 0, b.getD 1 0, b.getD 2 0, b.getD 3 0⟩
            if 0 < rectArea r then
              [{ page_num := (fi.page - 1).toNat, rect := r
                 message := "Red text – possible edit remnant. Please remove or revise before finalising."
                 color := (1.0, 0.3, 0.3), opacity := 0.4, title := "Red text (edit remnant)" }]
            else []
          else []
        else []
      | none => []
    else [])

/-- The comment emitted for a footnote issue (annotate.py lines 736-745). -/
def footnote_issue_comment (fi : FootnoteIssue) : Comment :=
  { page := fi.page, text := fi.message, type := "Footnote", color := "#6f42c1"
    highlighted_text := takeStr (fi.reference.getD "") 100
    jurisdiction := none, search_text := fi.reference }

/-- The highlight written for a footnote issue (annotate.py lines 746-764):
either at the issue's recorded bbox, or at the footnote definition's recorded
location when the reference is known. -/
def footnote_issue_annot (doc : PdfDoc) (footnotes_locations : List (String × FnLoc))
    (fi : FootnoteIssue) : List AddedAnnot :=
  let rectAndIdx : Option (Rect × Int) :=
    match listTruthy fi.bbox with
    | some b =>
      if 4 ≤ b.length then
        some (⟨b.getD 0 0, b.getD 1 0, b.getD 2 0, b.getD 3 0⟩, fi.page - 1)
      else none
    | none =>
      match pyTruthy fi.reference with
      | some ref =>
        if footnotes_locations.isEmpty then none
        else
          match (footnotes_locations.find? (fun p => p.1 == ref)).map (fun p => p.2) with
          | some loc =>
            if 4 ≤ loc.bbox.length then
              some (⟨loc.bbox.getD 0 0, loc.bbox.getD 1 0, loc.bbox.getD 2 0,
                loc.bbox.getD 3 0⟩, loc.page - 1)
            else none
          | none => none
      | none => none
  match rectAndIdx with
  | some (r, pidx) =>
    if 0 ≤ pidx ∧ pidx < (doc.pages.length : Int) then
      [{ page_num := pidx.toNat, rect := r, message := takeStr fi.message 200
         color := (0.43, 0.26, 0.76), opacity := 0.4, title := "Footnote" }]
    else []
  | none => []

/-- The comment emitted for a formatting issue (annotate.py lines 766-776). -/
def formatting_issue_comment (fi : FormattingIssue) : Comment :=
  { page := fi.page
    text := fi.message ++
      (match pyTruthy fi.color_hex with
       | some ch => " (" ++ ch ++ ")"
       | none => "")
    type := if fi.issue_type = "unusual_color" then "Red text" else "Existing highlight"
    color := if fi.issue_type = "existing_highlight" then "#0dcaf0" else "#dc3545"
    highlighted_text := takeStr (fi.text.getD "") 200
    jurisdiction := none
    search_text :=
      match pyTruthy fi.text with
      | some t => some (takeStr t 100)
      | none => none }

/-- The `has_issues` gate of `process_pdf_page_by_page` (annotate.py lines
442-453). -/
def hasIssues (analysis_result : AnalysisResult) : Bool :=
  !analysis_result.missing_required_phrases.isEmpty ||
  analysis_result.checklist_results.any (fun cr =>
    !cr.violation_details.isEmpty || !cr.violations.isEmpty || !cr.missing_required.isEmpty) ||
  !analysis_result.footnote_issues.isEmpty ||
  !analysis_result.formatting_issues.isEmpty

/-- The comment dedup key (annotate.py lines 783-787). -/
def commentKey (c : Comment) : String × String × Int :=
  (takeStr c.text 80,
   takeStr (if c.highlighted_text ≠ "" then c.highlighted_text else c.search_text.getD "") 60,
   c.page)

/-- Dedup loop of annotate.py lines 779-792: first comment of each key kept. -/
def dedupCommentsGo (seen : List (String × String × Int)) : List Comment → List Comment
  | [] => []
  | c :: rest =>
    if commentKey c ∈ seen then dedupCommentsGo seen rest
    else c :: dedupCommentsGo (commentKey c :: seen) rest

/-- Global comment deduplication. -/
def dedup_comments (l : List Comment) : List Comment :=
  dedupCommentsGo [] l

/-- `comments.sort(key=lambda c: c.get("page", 0))` (annotate.py line 795):
a stable ascending sort by page. -/
def sort_comments (l : List Comment) : List Comment :=
  sortStable (fun a b => decide (a.page ≤ b.page)) l

/-- All annotation/comment collection of the main path of
`process_pdf_page_by_page` (annotate.py lines 463-776), before dedup/sort. -/
def collect_comments_and_annots (doc : PdfDoc) (analysis_result : AnalysisResult)
    (all_detected : List DetectedDisclaimer) : AnnState :=
  let st1 := analysis_result.checklist_results.foldl
    (fun st cr =>
      if cr.jurisdiction == none then
        (build_issues_to_annotate cr).foldl (annotate_issue_docwide doc) st
      else st)
    ⟨0, [], []⟩
  let st2 := all_detected.foldl (process_disclaimer doc analysis_result) st1
  let st3 := { st2 with
    annots := st2.annots ++ formatting_highlight_annots doc analysis_result.formatting_issues }
  let st4 := analysis_result.footnote_issues.foldl
    (fun st fi =>
      { st with
        comments := st.comments ++ [footnote_issue_comment fi]
        annots := st.annots ++
          footnote_issue_annot doc analysis_result.footnotes_locations fi })
    st3
  { st4 with
    comments := st4.comments ++ analysis_result.formatting_issues.map formatting_issue_comment }

/-- The save step (annotate.py lines 797-803): try the incremental save; on
exception fall back to the full save; a second exception propagates. -/
def save_pdf (doc : PdfDoc) (annots : List AddedAnnot) : Except Unit SavedPdf :=
  if doc.saveIncrementalOk then Except.ok ⟨doc, annots, true⟩
  else if doc.saveFullOk then Except.ok ⟨doc, annots, false⟩
  else Except.error ()

/-- `process_pdf_page_by_page` from annotate.py: the no-op branch saves the
untouched document (full save, unguarded — lines 456-461); the main path
collects annotations and comments, deduplicates and sorts the comments, and
saves incrementally with a full-save fallback. `Except.error` models a raised
exception. -/
def process_pdf_page_by_page (doc : PdfDoc) (analysis_result : AnalysisResult)
    (all_detected : List DetectedDisclaimer) : Except Unit (SavedPdf × List Comment) :=
  if !(hasIssues analysis_result) then
    if doc.saveFullOk then Except.ok (⟨doc, [], false⟩, [])
    else Except.error ()
  else
    let st := collect_comments_and_annots doc analysis_result all_detected
    match save_pdf doc st.annots with
    | Except.ok saved => Except.ok (saved, sort_comments (dedup_comments st.comments))
    | Except.error e => Except.error e

/-! ### Properties of the stable sort and the comment dedup -/

theorem mem_insertStable (le : α → α → Bool) (x : α) (l : List α) (a : α) :
    a ∈ insertStable le x l ↔ a = x ∨ a ∈ l := by
  induction l with
  | nil => simp [insertStable]
  | cons y ys ih =>
    rw [insertStable]
    cases hle : le x y with
    | true => simp
    | false =>
      simp only [Bool.false_eq_true, if_false, List.mem_cons, ih]
      tauto

theorem perm_insertStable (le : α → α → Bool) (x : α) (l : List α) :
    List.Perm (insertStable le x l) (x :: l) := by
  induction l with
  | nil => exact List.Perm.refl _
  | cons y ys ih =>
    rw [insertStable]
    cases hle : le x y with
    | true => simp
    | false =>
      simp only [Bool.false_eq_true, if_false]
      exact (ih.cons y).trans (List.Perm.swap x y ys)

theorem perm_sortStable (le : α → α → Bool) (l : List α) :
    List.Perm (sortStable le l) l := by
  induction l with
  | nil => exact List.Perm.refl _
  | cons x xs ih =>
    rw [sortStable]
    exact (perm_insertStable le x (sortStable le xs)).trans (ih.cons x)

theorem pairwise_insertStable (key : α → Int) (x : α) (l : List α)
    (h : l.Pairwise (fun a b => key a ≤ key b)) :
    (insertStable (fun a b => decide (key a ≤ key b)) x l).Pairwise
      (fun a b => key a ≤ key b) := by
  induction l with
  | nil => simp [insertStable]
  | cons y ys ih =>
    rw [insertStable]
    rw [List.pairwise_cons] at h
    obtain ⟨hy, hys⟩ := h
    cases hle : decide (key x ≤ key y) with
    | true =>
      have hxy : key x ≤ key y := of_decide_eq_true hle
      simp only [if_true]
      rw [List.pairwise_cons]
      refine ⟨?_, List.Pairwise.cons hy hys⟩
      intro a ha
      rcases List.mem_cons.mp ha with rfl | ha
      · exact hxy
      · exact le_trans hxy (hy a ha)
    | false =>
      have hyx : key y ≤ key x := by
        have := of_decide_eq_false hle
        omega
      simp only [Bool.false_eq_true, if_false]
      rw [List.pairwise_cons]
      refine ⟨?_, ih hys⟩
      intro a ha
      rcases (mem_insertStable _ x ys a).mp ha with rfl | ha
      · exact hyx
      · exact hy a ha

theorem pairwise_sortStable (key : α → Int) (l : List α) :
    (sortStable (fun a b => decide (key a ≤ key b)) l).Pairwise
      (fun a b => key a ≤ key b) := by
  induction l with
  | nil => simp [sortStable]
  | cons x xs ih =>
    rw [sortStable]
    exact pairwise_insertStable key x _ ih

theorem filter_insertStable (key : α → Int) (p : Int) (x : α) (l : List α) :
    (insertStable (fun a b => decide (key a ≤ key b)) x l).filter (fun a => key a == p) =
      if key x = p then x :: l.filter (fun a => key a == p)
      else l.filter (fun a => key a == p) := by
  induction l with
  | nil =>
    rw [insertStable, List.filter_cons]
    by_cases hx : key x = p
    · rw [if_pos hx]
      simp [hx]
    · rw [if_neg hx]
      simp [hx]
  | cons y ys ih =>
    rw [insertStable]
    cases hle : decide (key x ≤ key y) with
    | true =>
      simp only [if_true, List.filter_cons]
      by_cases hx : key x = p
      · simp [hx]
      · simp [hx]
    | false =>
      have hyx : key y < key x := by
        have := of_decide_eq_false hle
        omega
      simp only [Bool.false_eq_true, if_false, List.filter_cons]
      by_cases hx : key x = p <;> by_cases hy : key y = p
      · omega
      · simp [ih, hx, hy]
      · simp [ih, hx, hy]
      · simp [ih, hx, hy]

theorem filter_sortStable (key : α → Int) (p : Int) (l : List α) :
    (sortStable (fun a b => decide (key a ≤ key b)) l).filter (fun a => key a == p) =
      l.filter (fun a => key a == p) := by
  induction l with
  | nil => rfl
  | cons x xs ih =>
    rw [sortStable, filter_insertStable, List.filter_cons, ih]
    by_cases hx : key x = p
    · rw [if_pos hx]
      simp [hx]
    · rw [if_neg hx]
      simp [hx]

theorem dedupCommentsGo_nodup (l : List Comment) :
    ∀ seen, ((dedupCommentsGo seen l).map commentKey).Nodup ∧
      ∀ c ∈ dedupCommentsGo seen l, commentKey c ∉ seen := by
  induction l with
  | nil => intro seen; simp [dedupCommentsGo]
  | cons c rest ih =>
    intro seen
    rw [dedupCommentsGo]
    by_cases hc : commentKey c ∈ seen
    · rw [if_pos hc]
      exact ih seen
    · rw [if_neg hc]
      simp only [List.map_cons]
      obtain ⟨hnd, hnotin⟩ := ih (commentKey c :: seen)
      refine ⟨List.nodup_cons.mpr ⟨?_, hnd⟩, ?_⟩
      · intro hmem
        obtain ⟨d, hd, hkey⟩ := List.mem_map.mp hmem
        exact hnotin d hd (hkey ▸ List.mem_cons_self _ _)
      · intro d hd
        rcases List.mem_cons.mp hd with rfl | hd
        · exact hc
        · exact fun hmem => hnotin d hd (List.mem_cons_of_mem _ hmem)

/-! ### Theorems for claims C1, C3, C4, C6 -/

theorem build_issues_empty (cr : ChecklistResult) (h1 : cr.violation_details = [])
    (h2 : cr.violations = []) (h3 : cr.missing_required = []) :
    build_issues_to_annotate cr = [] := by
  simp [build_issues_to_annotate, h1, h2, h3, sortStable]

theorem process_disclaimer_clean (doc : PdfDoc) (ar : AnalysisResult) (st : AnnState)
    (d : DetectedDisclaimer)
    (h : ∀ cr ∈ ar.checklist_results,
      cr.violation_details = [] ∧ cr.violations = [] ∧ cr.missing_required = []) :
    process_disclaimer doc ar st d = st := by
  rw [process_disclaimer]
  by_cases ht : d.text = ""
  · rw [if_pos ht]
  · rw [if_neg ht]
    cases hj : d.jurisdiction with
    | some j =>
      cases hf : ar.checklist_results.find? (fun cr => cr.jurisdiction == some j) with
      | none => simp [hf]
      | some cr =>
        have hmem := List.mem_of_find?_eq_some hf
        obtain ⟨-, h2, h3⟩ := h cr hmem
        simp [hf, h2, h3]
    | none =>
      cases hf : ar.checklist_results.find? (fun cr => cr.jurisdiction == none) with
      | none => simp [hf]
      | some cr =>
        have hmem := List.mem_of_find?_eq_some hf
        obtain ⟨-, h2, h3⟩ := h cr hmem
        simp [hf, h2, h3]

theorem fold_docwide_clean (doc : PdfDoc) (crs : List ChecklistResult)
    (h : ∀ cr ∈ crs,
      cr.violation_details = [] ∧ cr.violations = [] ∧ cr.missing_required = []) :
    ∀ st0 : AnnState,
      crs.foldl
        (fun st cr =>
          if cr.jurisdiction == none then
            (build_issues_to_annotate cr).foldl (annotate_issue_docwide doc) st
          else st)
        st0 = st0 := by
  induction crs with
  | nil => intro st0; rfl
  | cons cr rest ih =>
    intro st0
    rw [List.foldl_cons]
    obtain ⟨e1, e2, e3⟩ := h cr (List.mem_cons_self cr rest)
    have hrest := fun c hc => h c (List.mem_cons_of_mem cr hc)
    by_cases hj : cr.jurisdiction == none
    · rw [if_pos hj, build_issues_empty cr e1 e2 e3, List.foldl_nil]
      exact ih hrest st0
    · rw [if_neg hj]
      exact ih hrest st0

theorem fold_disclaimers_clean (doc : PdfDoc) (ar : AnalysisResult)
    (ad : List DetectedDisclaimer)
    (h : ∀ cr ∈ ar.checklist_results,
      cr.violation_details = [] ∧ cr.violations = [] ∧ cr.missing_required = []) :
    ∀ st0 : AnnState, ad.foldl (process_disclaimer doc ar) st0 = st0 := by
  induction ad with
  | nil => intro st0; rfl
  | cons d rest ih =>
    intro st0
    rw [List.foldl_cons, process_disclaimer_clean doc ar st0 d h]
    exact ih st0

theorem collect_comments_clean (doc : PdfDoc) (ar : AnalysisResult)
    (ad : List DetectedDisclaimer)
    (h2 : ∀ cr ∈ ar.checklist_results,
      cr.violation_details = [] ∧ cr.violations = [] ∧ cr.missing_required = [])
    (h3 : ar.footnote_issues = []) (h4 : ar.formatting_issues = []) :
    (collect_comments_and_annots doc ar ad).comments = [] := by
  rw [collect_comments_and_annots]
  rw [fold_docwide_clean doc ar.checklist_results h2]
  rw [fold_disclaimers_clean doc ar ad h2]
  rw [h3, h4]
  rfl

theorem clean_of_hasIssues_false (ar : AnalysisResult) (hI : hasIssues ar = false) :
    ar.missing_required_phrases = [] ∧
    (∀ cr ∈ ar.checklist_results,
      cr.violation_details = [] ∧ cr.violations = [] ∧ cr.missing_required = []) ∧
    ar.footnote_issues = [] ∧ ar.formatting_issues = [] := by
  rw [hasIssues] at hI
  simp only [Bool.or_eq_false_iff] at hI
  obtain ⟨⟨⟨hm, hany⟩, hfn⟩, hfm⟩ := hI
  refine ⟨by simpa using hm, ?_, by simpa using hfn, by simpa using hfm⟩
  intro cr hcr
  have hcr' := Bool.eq_false_iff.mpr (List.any_eq_false.mp hany cr hcr)
  simp only [Bool.or_eq_false_iff] at hcr'
  obtain ⟨⟨e1, e2⟩, e3⟩ := hcr'
  exact ⟨by simpa using e1, by simpa using e2, by simpa using e3⟩

theorem hasIssues_false_of_clean (ar : AnalysisResult)
    (h1 : ar.missing_required_phrases = [])
    (h2 : ∀ cr ∈ ar.checklist_results,
      cr.violation_details = [] ∧ cr.violations = [] ∧ cr.missing_required = [])
    (h3 : ar.footnote_issues = []) (h4 : ar.formatting_issues = []) :
    hasIssues ar = false := by
  rw [hasIssues, h1, h3, h4]
  simp only [List.isEmpty_nil, Bool.not_true, Bool.false_or, Bool.or_false]
  rw [List.any_eq_false]
  intro cr hcr
  obtain ⟨e1, e2, e3⟩ := h2 cr hcr
  simp [e1, e2, e3]

/-- C1: for a clean analysis result (no missing required phrases anywhere, no
violations or violation details on any checklist result, no footnote issues,
no formatting issues), `process_pdf_page_by_page` is a no-op pass-through:
assuming the save call succeeds, it returns the input document with no added
annotations — hence identical text content — and an empty comment list. -/
theorem C1_clean_document_no_op (doc : PdfDoc) (ar : AnalysisResult)
    (ad : List DetectedDisclaimer)
    (h1 : ar.missing_required_phrases = [])
    (h2 : ∀ cr ∈ ar.checklist_results,
      cr.violation_details = [] ∧ cr.violations = [] ∧ cr.missing_required = [])
    (h3 : ar.footnote_issues = []) (h4 : ar.formatting_issues = [])
    (h5 : doc.saveFullOk = true) :
    ∃ out : SavedPdf,
      process_pdf_page_by_page doc ar ad = Except.ok (out, []) ∧
      out.annots = [] ∧
      savedTextContent out = doc.pages.map (fun p => p.text) := by
  refine ⟨⟨doc, [], false⟩, ?_, rfl, rfl⟩
  rw [process_pdf_page_by_page, hasIssues_false_of_clean ar h1 h2 h3 h4]
  simp [h5]

/-- C1 witness: a concrete empty document and clean analysis result. -/
theorem C1_clean_document_witness :
    ∃ out : SavedPdf,
      process_pdf_page_by_page ⟨[], false, true⟩ ⟨[], [], [], [], []⟩ [] =
        Except.ok (out, []) ∧
      out.annots = [] ∧
      savedTextContent out =
        (⟨[], false, true⟩ : PdfDoc).pages.map (fun p => p.text) :=
  C1_clean_document_no_op ⟨[], false, true⟩ ⟨[], [], [], [], []⟩ [] rfl
    (by intro cr hcr; cases hcr) rfl rfl rfl

/-- C3: the comment list returned by `process_pdf_page_by_page` never contains
two comments with the same dedup key (message prefix, highlighted-or-search
text prefix, page), is sorted by ascending page number, and within each page
preserves the discovery (insertion) order of the deduplicated collection. -/
theorem C3_comments_deduped_sorted (doc : PdfDoc) (ar : AnalysisResult)
    (ad : List DetectedDisclaimer) (out : SavedPdf) (cs : List Comment)
    (h : process_pdf_page_by_page doc ar ad = Except.ok (out, cs)) :
    (cs.map commentKey).Nodup ∧
    cs.Pairwise (fun a b => a.page ≤ b.page) ∧
    ∀ p : Int, cs.filter (fun c => c.page == p) =
      (dedup_comments (collect_comments_and_annots doc ar ad).comments).filter
        (fun c => c.page == p) := by
  rw [process_pdf_page_by_page] at h
  cases hI : hasIssues ar with
  | false =>
    rw [hI] at h
    simp only [Bool.not_false, if_true] at h
    cases hS : doc.saveFullOk with
    | false => rw [hS] at h; simp at h
    | true =>
      rw [hS, if_pos rfl] at h
      have hcs : cs = [] := (congrArg Prod.snd (Except.ok.inj h)).symm
      obtain ⟨-, hc2, hc3, hc4⟩ := clean_of_hasIssues_false ar hI
      have hclean := collect_comments_clean doc ar ad hc2 hc3 hc4
      subst hcs
      rw [hclean]
      exact ⟨List.nodup_nil, List.Pairwise.nil, fun p => rfl⟩
  | true =>
    rw [hI] at h
    simp only [Bool.not_true, Bool.false_eq_true, if_false] at h
    rw [save_pdf] at h
    have hcs : cs = sort_comments (dedup_comments
        (collect_comments_and_annots doc ar ad).comments) := by
      by_cases hInc : doc.saveIncrementalOk
      · rw [if_pos hInc] at h
        exact (congrArg Prod.snd (Except.ok.inj h)).symm
      · rw [if_neg hInc] at h
        by_cases hFull : doc.saveFullOk
        · rw [if_pos hFull] at h
          exact (congrArg Prod.snd (Except.ok.inj h)).symm
        · rw [if_neg hFull] at h
          exact absurd h (by simp)
    subst hcs
    refine ⟨?_, ?_, ?_⟩
    · have hperm : List.Perm
          (sort_comments (dedup_comments (collect_comments_and_annots doc ar ad).comments))
          (dedup_comments (collect_comments_and_annots doc ar ad).comments) :=
        perm_sortStable _ _
      have hnd := (dedupCommentsGo_nodup
        (collect_comments_and_annots doc ar ad).comments []).1
      exact ((hperm.map commentKey).nodup_iff).mpr hnd
    · exact pairwise_sortStable (fun c : Comment => c.page) _
    · intro p
      exact filter_sortStable (fun c : Comment => c.page) p _

/-- C3 witness: at the empty document and clean analysis result, the returned
comment list satisfies all three invariants. -/
theorem C3_comments_witness :
    ((([] : List Comment)).map commentKey).Nodup ∧
    (([] : List Comment)).Pairwise (fun a b => a.page ≤ b.page) ∧
    ∀ p : Int, (([] : List Comment)).filter (fun c => c.page == p) =
      (dedup_comments (collect_comments_and_annots ⟨[], false, true⟩
        ⟨[], [], [], [], []⟩ []).comments).filter (fun c => c.page == p) :=
  C3_comments_deduped_sorted ⟨[], false, true⟩ ⟨[], [], [], [], []⟩ []
    ⟨⟨[], false, true⟩, [], false⟩ [] rfl

/-- C4: for a HIGH-severity violation or missing-required issue for which the
locator resolves no region, each of the two annotation loops still emits
exactly one comment — anchored at page 1 in the document-wide loop, and at the
disclaimer anchor page (first disclaimer-section hit, else page 1) in the
per-disclaimer loop — and writes no highlight (the annotation list is
unchanged). -/
theorem C4_no_region_single_comment (doc : PdfDoc) (st : AnnState) (issue : IssueRec)
    (htype : issue.type = "violation" ∨ issue.type = "missing_required")
    (hsev : issue.severity = "HIGH") :
    (located_instances doc (pyTruthy issue.exact_text)
        (if (pyTruthy issue.exact_text).isNone then docwide_keyword_fallback issue
         else none) = [] →
      annotate_issue_docwide doc st issue =
        { color_index := st.color_index + 1
          annots := st.annots
          comments := st.comments ++
            [fallbackComment issue
              (colorHex (color_palette.getD (st.color_index % color_palette.length) (0, 0, 0)))
              "Document-wide" 1] }) ∧
    (∀ (detected_text jur_name : String) (locs : List (Nat × Rect)),
      located_instances doc issue.exact_text
          (if (pyTruthy issue.exact_text).isNone
           then disclaimer_keyword_fallback detected_text issue else none) = [] →
      annotate_issue_disclaimer doc detected_text jur_name locs st issue =
        { color_index := st.color_index + 1
          annots := st.annots
          comments := st.comments ++
            [fallbackComment issue
              (colorHex (color_palette.getD (st.color_index % color_palette.length) (0, 0, 0)))
              jur_name
              (match locs with
               | (pn, _) :: _ => (pn : Int) + 1
               | [] => 1)] }) := by
  constructor
  · intro hloc
    simp only [annotate_issue_docwide]
    rw [hloc, if_neg (fun hne => hne rfl), if_pos ⟨htype, hsev⟩]
  · intro detected_text jur_name locs hloc
    simp only [annotate_issue_disclaimer]
    rw [hloc, if_neg (fun hne => hne rfl), if_pos ⟨htype, hsev⟩]

/-- Issue used in the C4 witness: a HIGH violation whose text matches nothing
in an empty document and triggers no keyword fallback. -/
def noMatchIssue : IssueRec :=
  { type := "violation", text := "No match here", reason := "No match here",
    exact_text := none, severity := "HIGH", priority := 1 }

/-- C4 witness: on an empty document the locator resolves nothing, and both
loops emit exactly one page-anchored comment and no highlight. -/
theorem C4_no_region_witness :
    annotate_issue_docwide ⟨[], false, true⟩ ⟨0, [], []⟩ noMatchIssue =
      { color_index := 1
        annots := []
        comments := [fallbackComment noMatchIssue
          (colorHex (color_palette.getD 0 (0, 0, 0))) "Document-wide" 1] } ∧
    annotate_issue_disclaimer ⟨[], false, true⟩ "" "General" [] ⟨0, [], []⟩ noMatchIssue =
      { color_index := 1
        annots := []
        comments := [fallbackComment noMatchIssue
          (colorHex (color_palette.getD 0 (0, 0, 0))) "General" 1] } := by
  constructor
  · exact (C4_no_region_single_comment ⟨[], false, true⟩ ⟨0, [], []⟩ noMatchIssue
      (Or.inl rfl) rfl).1 (by decide)
  · exact (C4_no_region_single_comment ⟨[], false, true⟩ ⟨0, [], []⟩ noMatchIssue
      (Or.inl rfl) rfl).2 "" "General" [] (by decide)

/-- Analysis result with a single formatting issue, enough to make
`has_issues` true while producing no highlights. -/
def fmtOnlyAnalysis : AnalysisResult :=
  { missing_required_phrases := []
    checklist_results := []
    footnote_issues := []
    formatting_issues :=
      [{ page := 1, issue_type := "existing_highlight"
         message := "Existing highlight found in document (review or remove before finalising)."
         text := none, color_hex := none, bbox := none }]
    footnotes_locations := [] }

/-- C6 counterexample: when both the incremental and the full save raise, the
call raises (modelling lines 797-805: the fallback `pdf_doc.save` is not
guarded, so the exception propagates and the route handler turns it into an
HTTP 500) instead of degrading to the unannotated original bytes with an
empty comment list. -/
theorem C6_counterexample :
    process_pdf_page_by_page ⟨[], false, false⟩ fmtOnlyAnalysis [] = Except.error () := rfl

/-- C6 (amended): on the annotation path the incremental save is attempted
first; if it raises, the full rewrite save is attempted; if both raise, the
exception propagates (the function raises rather than returning the
unannotated original bytes with an empty comment list). -/
theorem C6_save_incremental_then_full (doc : PdfDoc) (ar : AnalysisResult)
    (ad : List DetectedDisclaimer) (hI : hasIssues ar = true) :
    (doc.saveIncrementalOk = true →
      process_pdf_page_by_page doc ar ad =
        Except.ok (⟨doc, (collect_comments_and_annots doc ar ad).annots, true⟩,
          sort_comments (dedup_comments (collect_comments_and_annots doc ar ad).comments))) ∧
    (doc.saveIncrementalOk = false → doc.saveFullOk = true →
      process_pdf_page_by_page doc ar ad =
        Except.ok (⟨doc, (collect_comments_and_annots doc ar ad).annots, false⟩,
          sort_comments (dedup_comments (collect_comments_and_annots doc ar ad).comments))) ∧
    (doc.saveIncrementalOk = false → doc.saveFullOk = false →
      process_pdf_page_by_page doc ar ad = Except.error ()) := by
  refine ⟨?_, ?_, ?_⟩
  · intro hInc
    simp only [process_pdf_page_by_page, hI, Bool.not_true, Bool.false_eq_true, if_false]
    rw [save_pdf, if_pos hInc]
  · intro hInc hFull
    simp only [process_pdf_page_by_page, hI, Bool.not_true, Bool.false_eq_true, if_false]
    rw [save_pdf, if_neg (by simp [hInc]), if_pos hFull]
  · intro hInc hFull
    simp only [process_pdf_page_by_page, hI, Bool.not_true, Bool.false_eq_true, if_false]
    rw [save_pdf, if_neg (by simp [hInc]), if_neg (by simp [hFull])]

/-- C6 witness: concrete documents exercising the incremental save and the
full-save fallback. -/
theorem C6_save_witness :
    process_pdf_page_by_page ⟨[], true, false⟩ fmtOnlyAnalysis [] =
      Except.ok (⟨⟨[], true, false⟩,
          (collect_comments_and_annots ⟨[], true, false⟩ fmtOnlyAnalysis []).annots, true⟩,
        sort_comments (dedup_comments
          (collect_comments_and_annots ⟨[], true, false⟩ fmtOnlyAnalysis []).comments)) ∧
    process_pdf_page_by_page ⟨[], false, true⟩ fmtOnlyAnalysis [] =
      Except.ok (⟨⟨[], false, true⟩,
          (collect_comments_and_annots ⟨[], false, true⟩ fmtOnlyAnalysis []).annots, false⟩,
        sort_comments (dedup_comments
          (collect_comments_and_annots ⟨[], false, true⟩ fmtOnlyAnalysis []).comments)) :=
  ⟨(C6_save_incremental_then_full ⟨[], true, false⟩ fmtOnlyAnalysis [] rfl).1 rfl,
   (C6_save_incremental_then_full ⟨[], false, true⟩ fmtOnlyAnalysis [] rfl).2.1 rfl rfl⟩

end Comply
